import Mathlib

/-!
# maine / vr-cpp : `native-lib.cpp`

A shallow embedding of `packages/vr-cpp/app/src/main/cpp/native-lib.cpp`:

* the 4x4 matrix helpers (`Matrix4f_*`), over an arbitrary field `α` standing for the
  scalar type (`float` in the source: the theorems below are about exact arithmetic);
* the frame loop of `OpenXrRenderLoop` (section 6 of that function), as a function from the
  answers of the OpenXR runtime to the sequence of runtime / GL calls the loop issues;
* the start-up and the teardown of `OpenXrRenderLoop` (sections 1 to 5 and 7) and the JNI
  entry points, as functions on the fields of the global `appState`.
-/

namespace NativeLib

/-! ## Matrix helpers -/

section Matrix

variable {α : Type} [Field α]

/-- The `struct Matrix4f { float M[4][4]; }`: `M i j` is `M[i][j]`. -/
@[ext]
structure Matrix4f (α : Type) where
  M : Fin 4 → Fin 4 → α

/-- The value-initialised matrix `Matrix4f result = {};` (all entries zero). -/
def Matrix4f.zero : Matrix4f α := ⟨fun _ _ => 0⟩

/-- The assignment `mat.M[i][j] = v;`. -/
def Matrix4f.set (mat : Matrix4f α) (i j : Fin 4) (v : α) : Matrix4f α :=
  ⟨fun r c => if r = i ∧ c = j then v else mat.M r c⟩

/-- The `XrVector3f` of the OpenXR headers. -/
structure XrVector3f (α : Type) where
  x : α
  y : α
  z : α

/-- The `XrQuaternionf` of the OpenXR headers. -/
structure XrQuaternionf (α : Type) where
  x : α
  y : α
  z : α
  w : α

/-- The `XrPosef` of the OpenXR headers. -/
structure XrPosef (α : Type) where
  orientation : XrQuaternionf α
  position : XrVector3f α

/-- The `XrFovf` of the OpenXR headers. -/
structure XrFovf (α : Type) where
  angleLeft : α
  angleRight : α
  angleUp : α
  angleDown : α

/-- The function `Matrix4f_CreateIdentity`: `mat.M[i][j] = (i == j) ? 1.0f : 0.0f`. -/
def Matrix4f_CreateIdentity : Matrix4f α :=
  ⟨fun i j => if i = j then 1 else 0⟩

/-- The function `Matrix4f_Multiply(a, b)`: each entry is the four-term sum of the source,
added left to right. -/
def Matrix4f_Multiply (a b : Matrix4f α) : Matrix4f α :=
  ⟨fun i j => a.M i 0 * b.M 0 j + a.M i 1 * b.M 1 j + a.M i 2 * b.M 2 j + a.M i 3 * b.M 3 j⟩

/-- The function `Matrix4f_CreateProjectionFov(fov, nearZ, farZ)`. The libm function `tanf`
is a parameter. -/
def Matrix4f_CreateProjectionFov (tanf : α → α) (fov : XrFovf α) (nearZ farZ : α) :
    Matrix4f α :=
  let tanAngleLeft := tanf fov.angleLeft
  let tanAngleRight := tanf fov.angleRight
  let tanAngleDown := tanf fov.angleDown
  let tanAngleUp := tanf fov.angleUp
  let tanAngleWidth := tanAngleRight - tanAngleLeft
  let tanAngleHeight := tanAngleUp - tanAngleDown
  let result : Matrix4f α := Matrix4f.zero
  let result := result.set 0 0 (2 / tanAngleWidth)
  let result := result.set 1 1 (2 / tanAngleHeight)
  let result := result.set 0 2 ((tanAngleRight + tanAngleLeft) / tanAngleWidth)
  let result := result.set 1 2 ((tanAngleUp + tanAngleDown) / tanAngleHeight)
  let result := result.set 2 2 (-(farZ + nearZ) / (farZ - nearZ))
  let result := result.set 3 2 (-1)
  let result := result.set 2 3 (-2 * farZ * nearZ / (farZ - nearZ))
  result

/-- The function `Matrix4f_CreateTranslation(x, y, z)`. -/
def Matrix4f_CreateTranslation (x y z : α) : Matrix4f α :=
  let mat : Matrix4f α := Matrix4f_CreateIdentity
  let mat := mat.set 0 3 x
  let mat := mat.set 1 3 y
  let mat := mat.set 2 3 z
  mat

/-- The function `Matrix4f_Inverse(mat)`. The source declares `result` without an
initialiser and then assigns all sixteen entries; the starting value used here is never
read. -/
def Matrix4f_Inverse (mat : Matrix4f α) : Matrix4f α :=
  let result : Matrix4f α := Matrix4f.zero
  let result := result.set 0 0 (mat.M 0 0)
  let result := result.set 0 1 (mat.M 1 0)
  let result := result.set 0 2 (mat.M 2 0)
  let result := result.set 0 3
    (-(mat.M 0 0 * mat.M 0 3 + mat.M 1 0 * mat.M 1 3 + mat.M 2 0 * mat.M 2 3))
  let result := result.set 1 0 (mat.M 0 1)
  let result := result.set 1 1 (mat.M 1 1)
  let result := result.set 1 2 (mat.M 2 1)
  let result := result.set 1 3
    (-(mat.M 0 1 * mat.M 0 3 + mat.M 1 1 * mat.M 1 3 + mat.M 2 1 * mat.M 2 3))
  let result := result.set 2 0 (mat.M 0 2)
  let result := result.set 2 1 (mat.M 1 2)
  let result := result.set 2 2 (mat.M 2 2)
  let result := result.set 2 3
    (-(mat.M 0 2 * mat.M 0 3 + mat.M 1 2 * mat.M 1 3 + mat.M 2 2 * mat.M 2 3))
  let result := result.set 3 0 0
  let result := result.set 3 1 0
  let result := result.set 3 2 0
  let result := result.set 3 3 1
  result

/-- The function `Matrix4f_CreateFromXrPose(pose)`. -/
def Matrix4f_CreateFromXrPose (pose : XrPosef α) : Matrix4f α :=
  let mat : Matrix4f α := Matrix4f_CreateIdentity
  let mat := mat.set 0 3 pose.position.x
  let mat := mat.set 1 3 pose.position.y
  let mat := mat.set 2 3 pose.position.z
  mat

/-- A rigid transform: the upper-left 3x3 block `R` satisfies `Rᵀ R = I` and the bottom row
is `(0, 0, 0, 1)`. -/
def IsRigid (m : Matrix4f α) : Prop :=
  (∀ i j : Fin 3,
      m.M 0 i.castSucc * m.M 0 j.castSucc + m.M 1 i.castSucc * m.M 1 j.castSucc
        + m.M 2 i.castSucc * m.M 2 j.castSucc = if i = j then 1 else 0)
    ∧ m.M 3 0 = 0 ∧ m.M 3 1 = 0 ∧ m.M 3 2 = 0 ∧ m.M 3 3 = 1

instance [DecidableEq α] (m : Matrix4f α) : Decidable (IsRigid m) := by
  unfold IsRigid; infer_instance

/-- A sample rigid transform: a quarter turn about the z axis followed by the translation
`(1, 2, 3)`. -/
def sampleRigid : Matrix4f ℚ :=
  ((((Matrix4f_CreateTranslation 1 2 3).set 0 0 0).set 0 1 (-1)).set 1 0 1).set 1 1 0

/-- A sample pose: the identity orientation at position `(1, 2, 3)`. -/
def samplePose : XrPosef ℚ := ⟨⟨0, 0, 0, 1⟩, ⟨1, 2, 3⟩⟩

end Matrix

/-! ## The frame loop of `OpenXrRenderLoop` -/

/-- Modelled from the spec: the `XrSessionState` enumeration of the OpenXR headers, which are
not part of the repository; the nine states are those of the session state machine. -/
inductive XrSessionState
  | XR_SESSION_STATE_UNKNOWN
  | XR_SESSION_STATE_IDLE
  | XR_SESSION_STATE_READY
  | XR_SESSION_STATE_SYNCHRONIZED
  | XR_SESSION_STATE_VISIBLE
  | XR_SESSION_STATE_FOCUSED
  | XR_SESSION_STATE_STOPPING
  | XR_SESSION_STATE_LOSS_PENDING
  | XR_SESSION_STATE_EXITING
  deriving DecidableEq, Repr

/-- Modelled from the spec: the view configuration types of the OpenXR headers, which are
not part of the repository; the loop only ever names the primary-stereo one. -/
inductive XrViewConfigurationType
  | XR_VIEW_CONFIGURATION_TYPE_PRIMARY_MONO
  | XR_VIEW_CONFIGURATION_TYPE_PRIMARY_STEREO
  deriving DecidableEq, Repr

/-- Modelled from the spec: the environment blend modes of the OpenXR headers, which are not
part of the repository; the loop only ever names the opaque one. -/
inductive XrEnvironmentBlendMode
  | XR_ENVIRONMENT_BLEND_MODE_OPAQUE
  | XR_ENVIRONMENT_BLEND_MODE_ADDITIVE
  | XR_ENVIRONMENT_BLEND_MODE_ALPHA_BLEND
  deriving DecidableEq, Repr

open XrSessionState XrViewConfigurationType XrEnvironmentBlendMode

/-- The constant `XR_TRUE` of the OpenXR headers (`XrBool32` is a 32-bit unsigned integer). -/
def XR_TRUE : Nat := 1

/-- The constant `XR_FALSE` of the OpenXR headers. -/
def XR_FALSE : Nat := 0

/-- The constant `XR_SUCCESS` of the OpenXR headers (`XrResult` is a signed integer). -/
def XR_SUCCESS : Int := 0

/-- The `XR_FAILED(result)` test of the OpenXR headers: negative results are errors. -/
def XR_FAILED (result : Int) : Bool := decide (result < 0)

/-- What `xrPollEvent` left in `eventData` when it returned `XR_SUCCESS`: a
session-state-changed notification with its `state`, or an event of another `type`. -/
inductive XrEventDataBuffer
  | sessionStateChanged (state : XrSessionState)
  | other (type : Nat)
  deriving DecidableEq, Repr

/-- The fields of `XrFrameState` the loop reads after `xrWaitFrame`. -/
structure XrFrameState where
  predictedDisplayTime : Int
  shouldRender : Nat
  deriving DecidableEq, Repr

/-- The fields of the global `appState` that the frame loop reads or writes. -/
structure AppState where
  sessionState : XrSessionState := XR_SESSION_STATE_UNKNOWN
  sessionRunning : Bool := false
  appRunning : Bool := false
  deriving DecidableEq, Repr

/-- The GL calls of the per-eye draw, in the arguments that vary (`imageIndex` selects the
colour texture `swapchainImages[i][imageIndex].image`). -/
inductive GlCall
  | glGenFramebuffers
  | glBindFramebuffer
  | glFramebufferTexture2D (imageIndex : Nat)
  | glViewport
  | glClearColor
  | glClear
  | glUseProgram (bound : Bool)
  | glUniformMatrix4fv
  | glBindVertexArray (bound : Bool)
  | glDrawArrays (first count : Nat)
  | glDeleteFramebuffers
  deriving DecidableEq, Repr

/-- One call issued by the frame loop. The swapchain calls and the GL calls carry the index
`i` of the eye: the swapchain they address is `appState.swapchains[i]`. -/
inductive Call
  | xrPollEvent
  | xrBeginSession (primaryViewConfigurationType : XrViewConfigurationType)
  | xrEndSession
  | sleep_for (milliseconds : Nat)
  | xrWaitFrame
  | xrBeginFrame
  | xrLocateViews (displayTime : Int) (viewCapacityInput : Nat)
  | xrAcquireSwapchainImage (i : Nat)
  | xrWaitSwapchainImage (i : Nat)
  | gl (i : Nat) (call : GlCall)
  | xrReleaseSwapchainImage (i : Nat)
  | xrEndFrame (displayTime : Int) (environmentBlendMode : XrEnvironmentBlendMode)
      (layerCount : Nat)
  deriving DecidableEq, Repr

/-- The answers of the runtime to the two swapchain calls of one eye: the results of
`xrAcquireSwapchainImage` and `xrWaitSwapchainImage`, and the value found in `imageIndex`
after the acquire call. -/
structure SwapchainAnswer where
  acquireResult : Int
  imageIndex : Nat
  waitResult : Int
  deriving DecidableEq, Repr

/-- Everything the outside world contributes to one iteration of the `while
(appState.appRunning)` loop: the events `xrPollEvent` hands out before it first returns
something other than `XR_SUCCESS`, the frame state written by `xrWaitFrame`, the count
written by `xrLocateViews` through `&viewCount`, the swapchain answers per eye, and whether
the control thread (`nativeOnDestroy`) stored `false` into `appRunning` during the
iteration. -/
structure FrameInput where
  events : List XrEventDataBuffer
  frameState : XrFrameState
  viewCountOutput : Nat
  swapchain : Nat → SwapchainAnswer
  stopRequested : Bool

/-- The body of the `while (xrPollEvent(...) == XR_SUCCESS)` loop for one event. -/
def handleEvent (st : AppState) (eventData : XrEventDataBuffer) : AppState × List Call :=
  match eventData with
  | .sessionStateChanged state =>
    let st := { st with sessionState := state }
    if st.sessionState = XR_SESSION_STATE_READY then
      ({ st with sessionRunning := true },
        [.xrBeginSession XR_VIEW_CONFIGURATION_TYPE_PRIMARY_STEREO])
    else if st.sessionState = XR_SESSION_STATE_STOPPING then
      ({ st with sessionRunning := false }, [.xrEndSession])
    else if st.sessionState = XR_SESSION_STATE_EXITING then
      ({ st with appRunning := false }, [])
    else
      (st, [])
  | .other _ => (st, [])

/-- The event drain `while (xrPollEvent(...) == XR_SUCCESS) { ... }`: one `xrPollEvent` call
per delivered event, and the last one that reports no event. -/
def pollEvents (st : AppState) : List XrEventDataBuffer → AppState × List Call
  | [] => (st, [.xrPollEvent])
  | eventData :: rest =>
    let handled := handleEvent st eventData
    let drained := pollEvents handled.1 rest
    (drained.1, .xrPollEvent :: (handled.2 ++ drained.2))

/-- The GL calls of one eye, from `glGenFramebuffers` to `glDeleteFramebuffers`. -/
def drawCalls (i imageIndex : Nat) : List Call :=
  [.gl i .glGenFramebuffers, .gl i .glBindFramebuffer,
   .gl i (.glFramebufferTexture2D imageIndex), .gl i .glViewport, .gl i .glClearColor,
   .gl i .glClear, .gl i (.glUseProgram true), .gl i .glUniformMatrix4fv,
   .gl i (.glBindVertexArray true), .gl i (.glDrawArrays 0 6),
   .gl i (.glBindVertexArray false), .gl i (.glUseProgram false),
   .gl i .glDeleteFramebuffers]

/-- The body of `for (uint32_t i = 0; i < viewCount; i++)` for eye `i`. The results of the
acquire and wait calls are discarded by the source. -/
def renderEye (i : Nat) (answer : SwapchainAnswer) : List Call :=
  [.xrAcquireSwapchainImage i, .xrWaitSwapchainImage i] ++ drawCalls i answer.imageIndex
    ++ [.xrReleaseSwapchainImage i]

/-- The result of a piece of the loop: the state, the local `viewCount`, and the calls
issued, oldest first. -/
structure LoopResult where
  state : AppState
  viewCount : Nat
  calls : List Call

/-- The frame part of an iteration, from `xrWaitFrame` to `xrEndFrame`. -/
def renderFrame (st : AppState) (viewCount : Nat) (input : FrameInput) : LoopResult :=
  let frameState := input.frameState
  if frameState.shouldRender = XR_TRUE then
    let located := input.viewCountOutput
    let eyes := (List.range located).flatMap (fun i => renderEye i (input.swapchain i))
    { state := st, viewCount := located,
      calls := [.xrWaitFrame, .xrBeginFrame,
                .xrLocateViews frameState.predictedDisplayTime viewCount] ++ eyes
        ++ [.xrEndFrame frameState.predictedDisplayTime XR_ENVIRONMENT_BLEND_MODE_OPAQUE 1] }
  else
    { state := st, viewCount := viewCount,
      calls := [.xrWaitFrame, .xrBeginFrame,
                .xrEndFrame frameState.predictedDisplayTime XR_ENVIRONMENT_BLEND_MODE_OPAQUE 0] }

/-- One iteration of the body of `while (appState.appRunning)`. -/
def loopIteration (st : AppState) (viewCount : Nat) (input : FrameInput) : LoopResult :=
  let drained := pollEvents st input.events
  if !drained.1.sessionRunning then
    { state := drained.1, viewCount := viewCount, calls := drained.2 ++ [.sleep_for 100] }
  else
    let frame := renderFrame drained.1 viewCount input
    { frame with calls := drained.2 ++ frame.calls }

/-- The store of the control thread into `appRunning`, when it happened. -/
def applyStop (st : AppState) (stopRequested : Bool) : AppState :=
  if stopRequested then { st with appRunning := false } else st

/-- The loop `while (appState.appRunning) { ... }` run on the inputs of its successive
iterations; it stops when `appRunning` is read as `false` (or when the inputs end: a finite
prefix of an execution). -/
def renderLoop (st : AppState) (viewCount : Nat) : List FrameInput → LoopResult
  | [] => { state := st, viewCount := viewCount, calls := [] }
  | input :: rest =>
    if st.appRunning then
      let body := loopIteration st viewCount input
      let later := renderLoop (applyStop body.state input.stopRequested) body.viewCount rest
      { later with calls := body.calls ++ later.calls }
    else
      { state := st, viewCount := viewCount, calls := [] }

/-- The swapchain and GL calls (acquire, wait, draw, release). -/
def Call.isSwapchainCall : Call → Bool
  | .xrAcquireSwapchainImage _ => true
  | .xrWaitSwapchainImage _ => true
  | .gl _ _ => true
  | .xrReleaseSwapchainImage _ => true
  | _ => false

/-- The swapchain and GL calls of eye `i`. -/
def Call.onSwapchain (i : Nat) : Call → Bool
  | .xrAcquireSwapchainImage j => decide (j = i)
  | .xrWaitSwapchainImage j => decide (j = i)
  | .gl j _ => decide (j = i)
  | .xrReleaseSwapchainImage j => decide (j = i)
  | _ => false

/-- The frame calls `xrWaitFrame`, `xrBeginFrame`, `xrEndFrame`. -/
def Call.isFrameCall : Call → Bool
  | .xrWaitFrame => true
  | .xrBeginFrame => true
  | .xrEndFrame _ _ _ => true
  | _ => false

/-- The calls `xrBeginFrame` and `xrEndFrame`. -/
def Call.isBeginOrEnd : Call → Bool
  | .xrBeginFrame => true
  | .xrEndFrame _ _ _ => true
  | _ => false

/-- The calls of the event drain: `xrPollEvent`, `xrBeginSession`, `xrEndSession`. -/
def Call.isEventCall : Call → Bool
  | .xrPollEvent => true
  | .xrBeginSession _ => true
  | .xrEndSession => true
  | _ => false

/-- The calls that matter to image ownership: acquire, release, and `xrEndFrame`. -/
def Call.isOwnershipCall : Call → Bool
  | .xrAcquireSwapchainImage _ => true
  | .xrReleaseSwapchainImage _ => true
  | .xrEndFrame _ _ _ => true
  | _ => false

/-- The number of images of swapchain `i` acquired and not yet released after `calls`:
acquire calls on `i` minus release calls on `i`. -/
def outstanding (i : Nat) (calls : List Call) : Int :=
  (calls.count (.xrAcquireSwapchainImage i) : Int) - calls.count (.xrReleaseSwapchainImage i)

/-- The ownership discipline on a sequence of calls: after any number `k` of its calls each
swapchain has zero or one outstanding image, none when the next call is `xrEndFrame`, and
none at the end. -/
def OwnershipSafe (calls : List Call) : Prop :=
  ∀ i : Nat, outstanding i calls = 0
    ∧ ∀ k : Nat, (0 ≤ outstanding i (calls.take k) ∧ outstanding i (calls.take k) ≤ 1)
        ∧ ∀ d b n, calls[k]? = some (.xrEndFrame d b n) → outstanding i (calls.take k) = 0

/-- The input `input` with the results of the acquire and wait calls replaced. -/
def FrameInput.withResults (input : FrameInput) (acquireResult waitResult : Nat → Int) :
    FrameInput :=
  { input with
    swapchain := fun i =>
      { input.swapchain i with acquireResult := acquireResult i, waitResult := waitResult i } }

/-- A sample input: no event, a frame to render at time 7, two views, every swapchain call
succeeding on image 0. -/
def sampleRender : FrameInput :=
  { events := [], frameState := { predictedDisplayTime := 7, shouldRender := XR_TRUE },
    viewCountOutput := 2,
    swapchain := fun _ => { acquireResult := 0, imageIndex := 0, waitResult := 0 },
    stopRequested := false }

/-- A sample input: a frame the runtime does not want rendered, at time `t`. -/
def sampleSkip (t : Int) : FrameInput :=
  { events := [], frameState := { predictedDisplayTime := t, shouldRender := XR_FALSE },
    viewCountOutput := 2,
    swapchain := fun _ => { acquireResult := 0, imageIndex := 0, waitResult := 0 },
    stopRequested := false }

/-- A sample input: as `sampleRender`, with an `EXITING` event delivered by the drain. -/
def sampleExiting : FrameInput :=
  { sampleRender with events := [.sessionStateChanged XR_SESSION_STATE_EXITING] }

/-- A sample input: as `sampleRender`, but `xrAcquireSwapchainImage` fails for eye 0 with
`XR_ERROR_VALIDATION_FAILURE` (-1). -/
def sampleAcquireFailure : FrameInput :=
  sampleRender.withResults (fun i => if i = 0 then -1 else 0) (fun _ => 0)

/-- A running session and a running application. -/
def runningState : AppState :=
  { sessionState := XR_SESSION_STATE_FOCUSED, sessionRunning := true, appRunning := true }

/-! ## Start-up, teardown and the JNI entry points -/

/-- The null handle `XR_NULL_HANDLE` of the OpenXR headers. -/
def XR_NULL_HANDLE : Nat := 0

/-- The null system id `XR_NULL_SYSTEM_ID` of the OpenXR headers. -/
def XR_NULL_SYSTEM_ID : Nat := 0

/-- The null display `EGL_NO_DISPLAY` of the EGL headers. -/
def EGL_NO_DISPLAY : Nat := 0

/-- The null context `EGL_NO_CONTEXT` of the EGL headers. -/
def EGL_NO_CONTEXT : Nat := 0

/-- The null surface `EGL_NO_SURFACE` of the EGL headers. -/
def EGL_NO_SURFACE : Nat := 0

/-- The fields of the global `appState` that start-up, teardown and the JNI entry points
read or write (handles are numbers, the null handle is 0; `videoTextureId` is a `GLuint`),
with the initial values of `struct AppState`. -/
structure EngineState where
  activityObject : Nat := 0
  nativeWindow : Nat := 0
  instanceHandle : Nat := XR_NULL_HANDLE
  systemId : Nat := XR_NULL_SYSTEM_ID
  session : Nat := XR_NULL_HANDLE
  space : Nat := XR_NULL_HANDLE
  swapchains : List Nat := []
  screenShaderProgram : Nat := 0
  screenVbo : Nat := 0
  screenVao : Nat := 0
  display : Nat := EGL_NO_DISPLAY
  context : Nat := EGL_NO_CONTEXT
  videoTextureId : Nat := 0
  glInitialized : Bool := false
  appResumed : Bool := false
  deriving DecidableEq, Repr

/-- What the outside world answers during the start-up part of `OpenXrRenderLoop`: the
values the EGL, OpenXR and GL calls return or leave in their output arguments.
`loaderFound` and `graphicsRequirementsFound` say whether `xrGetInstanceProcAddr` produced a
non-null function pointer; `viewCount` is the count left in the local `viewCount`;
`swapchain i` is the handle in `appState.swapchains[i]` after `xrCreateSwapchain` (the null
handle when the call left it unset). -/
structure InitAnswers where
  display : Nat
  context : Nat
  tinySurface : Nat
  loaderFound : Bool
  loaderInitResult : Int
  createInstanceResult : Int
  instanceHandle : Nat
  getSystemResult : Int
  systemId : Nat
  graphicsRequirementsFound : Bool
  graphicsRequirementsResult : Int
  createSessionResult : Int
  session : Nat
  space : Nat
  viewCount : Nat
  swapchain : Nat → Nat
  screenShaderProgram : Nat
  screenVao : Nat
  screenVbo : Nat
  videoTextureId : Nat

/-- How the start-up part of `OpenXrRenderLoop` ends: an early `return` (the thread exits,
no frame loop, no teardown), or the frame loop is entered with the locals `tinySurface` and
`viewCount`. -/
inductive InitOutcome
  | returned (st : EngineState)
  | loop (st : EngineState) (tinySurface viewCount : Nat)
  deriving DecidableEq, Repr

/-- The start-up part of `OpenXrRenderLoop`, from `eglGetDisplay` to
`appState.glInitialized = true` (sections 1 to 5 of the function). -/
def OpenXrRenderLoop_init (st : EngineState) (a : InitAnswers) : InitOutcome :=
  let st := { st with display := a.display }
  if st.display = EGL_NO_DISPLAY then .returned st else
  let st := { st with context := a.context }
  if st.context = EGL_NO_CONTEXT then .returned st else
  let tinySurface := a.tinySurface
  if !a.loaderFound then .returned st else
  if XR_FAILED a.loaderInitResult then .returned st else
  let st := { st with instanceHandle := a.instanceHandle }
  if XR_FAILED a.createInstanceResult then .returned st else
  let st := { st with systemId := a.systemId }
  if XR_FAILED a.getSystemResult then .returned st else
  if !a.graphicsRequirementsFound then .returned st else
  if XR_FAILED a.graphicsRequirementsResult then .returned st else
  let st := { st with session := a.session }
  if XR_FAILED a.createSessionResult then .returned st else
  let st := { st with space := a.space }
  let viewCount := a.viewCount
  let st := { st with swapchains := (List.range viewCount).map a.swapchain }
  let st := { st with screenShaderProgram := a.screenShaderProgram,
                      screenVao := a.screenVao, screenVbo := a.screenVbo }
  let st := { st with videoTextureId := a.videoTextureId }
  let st := { st with glInitialized := true }
  .loop st tinySurface viewCount

/-- Some fatal start-up error occurs: one of the tests that guard the early `return`s of the
start-up part holds (EGL display, EGL context, loader entry point, loader initialisation,
instance creation, system query, graphics-requirements entry point and query, session
creation). -/
def InitAnswers.fatal (a : InitAnswers) : Bool :=
  decide (a.display = EGL_NO_DISPLAY) || decide (a.context = EGL_NO_CONTEXT)
    || !a.loaderFound || XR_FAILED a.loaderInitResult || XR_FAILED a.createInstanceResult
    || XR_FAILED a.getSystemResult || !a.graphicsRequirementsFound
    || XR_FAILED a.graphicsRequirementsResult || XR_FAILED a.createSessionResult

/-- The state the thread leaves behind after start-up, whichever way it ended. -/
def InitOutcome.state : InitOutcome → EngineState
  | .returned st => st
  | .loop st _ _ => st

/-- One call of the teardown (section 7 of `OpenXrRenderLoop`), with the handle it is
given. -/
inductive CleanupCall
  | glDeleteTextures (texture : Nat)
  | glDeleteProgram (program : Nat)
  | glDeleteBuffers (buffer : Nat)
  | glDeleteVertexArrays (array : Nat)
  | xrDestroySwapchain (swapchain : Nat)
  | xrDestroySpace (space : Nat)
  | xrDestroySession (session : Nat)
  | xrDestroyInstance (instanceHandle : Nat)
  | eglMakeCurrent (display : Nat)
  | eglDestroySurface (display surface : Nat)
  | eglDestroyContext (display context : Nat)
  | eglTerminate (display : Nat)
  deriving DecidableEq, Repr

/-- The statement `if (handle != null) destroy(handle);`. -/
def destroyIfSet (handle null : Nat) (call : CleanupCall) : List CleanupCall :=
  if handle ≠ null then [call] else []

/-- The teardown of `OpenXrRenderLoop` (section 7), as the calls it issues in order. The
loop over `appState.swapchains` has no test on the handle. -/
def cleanup (st : EngineState) (tinySurface : Nat) : List CleanupCall :=
  destroyIfSet st.videoTextureId 0 (.glDeleteTextures st.videoTextureId)
    ++ destroyIfSet st.screenShaderProgram 0 (.glDeleteProgram st.screenShaderProgram)
    ++ destroyIfSet st.screenVbo 0 (.glDeleteBuffers st.screenVbo)
    ++ destroyIfSet st.screenVao 0 (.glDeleteVertexArrays st.screenVao)
    ++ st.swapchains.map (fun swapchain => .xrDestroySwapchain swapchain)
    ++ destroyIfSet st.space XR_NULL_HANDLE (.xrDestroySpace st.space)
    ++ destroyIfSet st.session XR_NULL_HANDLE (.xrDestroySession st.session)
    ++ destroyIfSet st.instanceHandle XR_NULL_HANDLE (.xrDestroyInstance st.instanceHandle)
    ++ [.eglMakeCurrent st.display]
    ++ destroyIfSet tinySurface EGL_NO_SURFACE (.eglDestroySurface st.display tinySurface)
    ++ destroyIfSet st.context EGL_NO_CONTEXT (.eglDestroyContext st.display st.context)
    ++ destroyIfSet st.display EGL_NO_DISPLAY (.eglTerminate st.display)

/-- The conversion `(jint)` of a `GLuint`: the 32-bit pattern read as a signed integer. -/
def toJint (n : Nat) : Int :=
  if n % 2 ^ 32 < 2 ^ 31 then ((n % 2 ^ 32 : Nat) : Int) else ((n % 2 ^ 32 : Nat) : Int) - 2 ^ 32

/-- The JNI function `nativeGetTextureId`. -/
def nativeGetTextureId (st : EngineState) : Int :=
  if st.glInitialized ∧ st.videoTextureId > 0 then toJint st.videoTextureId else -1

/-- The JNI function `nativeOnResume`. -/
def nativeOnResume (st : EngineState) : EngineState :=
  { st with appResumed := true }

/-- The JNI function `nativeOnPause`. -/
def nativeOnPause (st : EngineState) : EngineState :=
  { st with appResumed := false }

/-- The JNI function `nativeOnDestroy`, once its `join` has returned: it clears `appRunning`
when it was set, drops the activity reference, and resets `glInitialized` and
`videoTextureId`. -/
def nativeOnDestroy (app : AppState) (st : EngineState) : AppState × EngineState :=
  let app := if app.appRunning then { app with appRunning := false } else app
  let st := if st.activityObject ≠ 0 then { st with activityObject := 0 } else st
  (app, { st with glInitialized := false, videoTextureId := 0 })

/-- The JNI function `nativeSetSurface`; `window` is what `ANativeWindow_fromSurface`
returns for a non-null surface. -/
def nativeSetSurface (st : EngineState) (surface window : Nat) : EngineState :=
  if surface ≠ 0 then { st with nativeWindow := window } else st

/-- A call of the host into the library other than `nativeOnCreate` (which starts a new
render thread). -/
inductive HostCall
  | nativeGetTextureId
  | nativeOnResume
  | nativeOnPause
  | nativeOnDestroy
  | nativeSetSurface (surface window : Nat)
  deriving DecidableEq, Repr

/-- The effect of one host call on the state. -/
def hostStep (s : AppState × EngineState) : HostCall → AppState × EngineState
  | .nativeGetTextureId => s
  | .nativeOnResume => (s.1, nativeOnResume s.2)
  | .nativeOnPause => (s.1, nativeOnPause s.2)
  | .nativeOnDestroy => nativeOnDestroy s.1 s.2
  | .nativeSetSurface surface window => (s.1, nativeSetSurface s.2 surface window)

/-- The effect of a sequence of host calls. -/
def hostRun (s : AppState × EngineState) (calls : List HostCall) : AppState × EngineState :=
  calls.foldl hostStep s

/-- Modelled from the spec: the allowed edges of the session state machine of section 4.1,
"UNKNOWN → IDLE → READY → SYNCHRONIZED → VISIBLE → FOCUSED, and STOPPING, LOSS_PENDING,
EXITING (terminal)": the steps of the chain, and the steps from a state other than the
terminal `EXITING` into `STOPPING`, `LOSS_PENDING` or `EXITING`. The source has no such
relation. -/
def allowedEdge : XrSessionState → XrSessionState → Bool
  | XR_SESSION_STATE_UNKNOWN, XR_SESSION_STATE_IDLE => true
  | XR_SESSION_STATE_IDLE, XR_SESSION_STATE_READY => true
  | XR_SESSION_STATE_READY, XR_SESSION_STATE_SYNCHRONIZED => true
  | XR_SESSION_STATE_SYNCHRONIZED, XR_SESSION_STATE_VISIBLE => true
  | XR_SESSION_STATE_VISIBLE, XR_SESSION_STATE_FOCUSED => true
  | XR_SESSION_STATE_EXITING, _ => false
  | _, XR_SESSION_STATE_STOPPING => true
  | _, XR_SESSION_STATE_LOSS_PENDING => true
  | _, XR_SESSION_STATE_EXITING => true
  | _, _ => false

/-- The initial value of the loop fields of the global `appState`. -/
def initialAppState : AppState := {}

/-- The initial value of the other fields of the global `appState`. -/
def initialEngineState : EngineState := {}

/-- The start-up answers of a run in which every step succeeds, except that
`xrCreateSwapchain` leaves the handle of eye 0 unset (eye 1 gets handle 5). -/
def sampleInit : InitAnswers :=
  { display := 1, context := 2, tinySurface := 3, loaderFound := true, loaderInitResult := 0,
    createInstanceResult := 0, instanceHandle := 4, getSystemResult := 0, systemId := 1,
    graphicsRequirementsFound := true, graphicsRequirementsResult := 0,
    createSessionResult := 0, session := 6, space := 7, viewCount := 2,
    swapchain := fun i => if i = 0 then XR_NULL_HANDLE else 5,
    screenShaderProgram := 8, screenVao := 9, screenVbo := 10, videoTextureId := 11 }

/-- The start-up answers of a run in which `xrCreateSession` fails with
`XR_ERROR_RUNTIME_FAILURE` (-2). -/
def sampleInitFailure : InitAnswers :=
  { sampleInit with createSessionResult := -2, session := XR_NULL_HANDLE }

/-! ## Theorems: the frame loop -/

section LoopTheorems

theorem handleEvent_isEventCall (st : AppState) (e : XrEventDataBuffer) :
    ∀ c ∈ (handleEvent st e).2, c.isEventCall = true := by
  intro c hc
  cases e with
  | other t => simp [handleEvent] at hc
  | sessionStateChanged s =>
    cases s <;> simp [handleEvent] at hc <;> subst hc <;> rfl

theorem pollEvents_isEventCall (st : AppState) (es : List XrEventDataBuffer) :
    ∀ c ∈ (pollEvents st es).2, c.isEventCall = true := by
  induction es generalizing st with
  | nil => intro c hc; simp [pollEvents] at hc; subst hc; rfl
  | cons e es ih =>
    intro c hc
    simp only [pollEvents, List.mem_cons, List.mem_append] at hc
    rcases hc with rfl | hc | hc
    · rfl
    · exact handleEvent_isEventCall st e c hc
    · exact ih _ c hc

theorem renderEye_onSwapchain (i : Nat) (a : SwapchainAnswer) :
    ∀ c ∈ renderEye i a, c.onSwapchain i = true := by
  intro c hc
  simp [renderEye, drawCalls] at hc
  rcases hc with rfl | rfl | rfl | rfl | rfl | rfl | rfl | rfl | rfl | rfl | rfl | rfl | rfl
    | rfl | rfl | rfl <;> simp [Call.onSwapchain]

theorem eyes_isSwapchainCall (n : Nat) (answers : Nat → SwapchainAnswer) :
    ∀ c ∈ (List.range n).flatMap (fun i => renderEye i (answers i)),
      c.isSwapchainCall = true := by
  intro c hc
  obtain ⟨i, -, hi⟩ := List.mem_flatMap.mp hc
  have := renderEye_onSwapchain i _ c hi
  cases c <;> simp [Call.onSwapchain] at this <;> rfl

theorem filter_eq_nil_of_forall {p q : Call → Bool} {l : List Call}
    (hl : ∀ c ∈ l, q c = true) (hpq : ∀ c, q c = true → p c = false) :
    l.filter p = [] := by
  rw [List.filter_eq_nil_iff]
  intro c hc
  simp [hpq c (hl c hc)]

theorem eventCall_not_frameCall (c : Call) (h : c.isEventCall = true) :
    c.isFrameCall = false := by
  cases c <;> simp_all [Call.isEventCall, Call.isFrameCall]

theorem swapchainCall_not_frameCall (c : Call) (h : c.isSwapchainCall = true) :
    c.isFrameCall = false := by
  cases c <;> simp_all [Call.isSwapchainCall, Call.isFrameCall]

theorem eventCall_not_swapchainCall (c : Call) (h : c.isEventCall = true) :
    c.isSwapchainCall = false := by
  cases c <;> simp_all [Call.isEventCall, Call.isSwapchainCall]

theorem eventCall_not_beginOrEnd (c : Call) (h : c.isEventCall = true) :
    c.isBeginOrEnd = false := by
  cases c <;> simp_all [Call.isEventCall, Call.isBeginOrEnd]

theorem swapchainCall_not_beginOrEnd (c : Call) (h : c.isSwapchainCall = true) :
    c.isBeginOrEnd = false := by
  cases c <;> simp_all [Call.isSwapchainCall, Call.isBeginOrEnd]

/-- The frame calls of the frame part of an iteration. -/
theorem renderFrame_frameCalls (st : AppState) (viewCount : Nat) (input : FrameInput) :
    (renderFrame st viewCount input).calls.filter Call.isFrameCall
      = [.xrWaitFrame, .xrBeginFrame,
          .xrEndFrame input.frameState.predictedDisplayTime XR_ENVIRONMENT_BLEND_MODE_OPAQUE
            (if input.frameState.shouldRender = XR_TRUE then 1 else 0)] := by
  unfold renderFrame
  by_cases h : input.frameState.shouldRender = XR_TRUE
  · simp only [h, if_true, List.filter_append]
    rw [filter_eq_nil_of_forall (eyes_isSwapchainCall _ _) swapchainCall_not_frameCall]
    simp [Call.isFrameCall]
  · simp [h, Call.isFrameCall]

/-- The begin/end calls of the frame part of an iteration. -/
theorem renderFrame_beginOrEnd (st : AppState) (viewCount : Nat) (input : FrameInput) :
    (renderFrame st viewCount input).calls.filter Call.isBeginOrEnd
      = [.xrBeginFrame,
          .xrEndFrame input.frameState.predictedDisplayTime XR_ENVIRONMENT_BLEND_MODE_OPAQUE
            (if input.frameState.shouldRender = XR_TRUE then 1 else 0)] := by
  unfold renderFrame
  by_cases h : input.frameState.shouldRender = XR_TRUE
  · simp only [h, if_true, List.filter_append]
    rw [filter_eq_nil_of_forall (eyes_isSwapchainCall _ _) swapchainCall_not_beginOrEnd]
    simp [Call.isBeginOrEnd]
  · simp [h, Call.isBeginOrEnd]

/-- The frame calls of one iteration. -/
theorem loopIteration_frameCalls (st : AppState) (viewCount : Nat) (input : FrameInput) :
    (loopIteration st viewCount input).calls.filter Call.isFrameCall
      = if (pollEvents st input.events).1.sessionRunning then
          [.xrWaitFrame, .xrBeginFrame,
            .xrEndFrame input.frameState.predictedDisplayTime
              XR_ENVIRONMENT_BLEND_MODE_OPAQUE
              (if input.frameState.shouldRender = XR_TRUE then 1 else 0)]
        else [] := by
  unfold loopIteration
  have hp := filter_eq_nil_of_forall (pollEvents_isEventCall st input.events)
    eventCall_not_frameCall
  cases h : (pollEvents st input.events).1.sessionRunning
  · simp [h, hp, Call.isFrameCall]
  · simp only [h, Bool.not_true, Bool.false_eq_true, if_false, if_true, List.filter_append, hp,
      List.nil_append]
    exact renderFrame_frameCalls _ _ _

/-- The begin/end calls of one iteration. -/
theorem loopIteration_beginOrEnd (st : AppState) (viewCount : Nat) (input : FrameInput) :
    (loopIteration st viewCount input).calls.filter Call.isBeginOrEnd
      = if (pollEvents st input.events).1.sessionRunning then
          [.xrBeginFrame,
            .xrEndFrame input.frameState.predictedDisplayTime
              XR_ENVIRONMENT_BLEND_MODE_OPAQUE
              (if input.frameState.shouldRender = XR_TRUE then 1 else 0)]
        else [] := by
  unfold loopIteration
  have hp := filter_eq_nil_of_forall (pollEvents_isEventCall st input.events)
    eventCall_not_beginOrEnd
  cases h : (pollEvents st input.events).1.sessionRunning
  · simp [h, hp, Call.isBeginOrEnd]
  · simp only [h, Bool.not_true, Bool.false_eq_true, if_false, if_true, List.filter_append, hp,
      List.nil_append]
    exact renderFrame_beginOrEnd _ _ _

/-- The drain does not read `appRunning`: its calls and the resulting `sessionRunning` depend
on the events and on the previous `sessionRunning` only. -/
theorem pollEvents_congr (st st' : AppState) (es : List XrEventDataBuffer)
    (h : st'.sessionRunning = st.sessionRunning) :
    (pollEvents st' es).2 = (pollEvents st es).2
      ∧ (pollEvents st' es).1.sessionRunning = (pollEvents st es).1.sessionRunning := by
  induction es generalizing st st' with
  | nil => exact ⟨rfl, h⟩
  | cons e es ih =>
    have he : (handleEvent st' e).2 = (handleEvent st e).2
        ∧ (handleEvent st' e).1.sessionRunning = (handleEvent st e).1.sessionRunning := by
      cases e with
      | other t => exact ⟨rfl, h⟩
      | sessionStateChanged s => cases s <;> simp [handleEvent, h]
    obtain ⟨h1, h2⟩ := ih (handleEvent st e).1 (handleEvent st' e).1 he.2
    simp only [pollEvents]
    exact ⟨by rw [he.1, h1], h2⟩

/-- The calls of one iteration: those of the drain, then the back-off sleep or the frame. -/
theorem loopIteration_calls (st : AppState) (viewCount : Nat) (input : FrameInput) :
    (loopIteration st viewCount input).calls
      = (pollEvents st input.events).2
        ++ (if (pollEvents st input.events).1.sessionRunning then
              (renderFrame (pollEvents st input.events).1 viewCount input).calls
            else [.sleep_for 100]) := by
  unfold loopIteration
  cases h : (pollEvents st input.events).1.sessionRunning <;> simp [h]

/-- The calls of the frame part depend neither on the state nor on the stop request. -/
theorem renderFrame_calls_congr (st st' : AppState) (viewCount : Nat) (input : FrameInput)
    (stop : Bool) :
    (renderFrame st' viewCount { input with stopRequested := stop }).calls
      = (renderFrame st viewCount input).calls := by
  unfold renderFrame
  dsimp only
  split <;> rfl

/-- The calls of one iteration do not depend on `appRunning` or on the stop request. -/
theorem loopIteration_calls_congr (st : AppState) (viewCount : Nat) (input : FrameInput)
    (running stop : Bool) :
    (loopIteration { st with appRunning := running } viewCount
        { input with stopRequested := stop }).calls
      = (loopIteration st viewCount input).calls := by
  obtain ⟨h1, h2⟩ := pollEvents_congr st { st with appRunning := running } input.events rfl
  rw [loopIteration_calls, loopIteration_calls]
  show (pollEvents { st with appRunning := running } input.events).2
      ++ (if (pollEvents { st with appRunning := running } input.events).1.sessionRunning then
            (renderFrame (pollEvents { st with appRunning := running } input.events).1
              viewCount { input with stopRequested := stop }).calls
          else [.sleep_for 100]) = _
  rw [h1, h2, renderFrame_calls_congr (pollEvents st input.events).1]

/-- The calls of the loop on a non-empty sequence of inputs. -/
theorem renderLoop_calls_cons (st : AppState) (viewCount : Nat) (input : FrameInput)
    (rest : List FrameInput) :
    (renderLoop st viewCount (input :: rest)).calls
      = if st.appRunning then
          (loopIteration st viewCount input).calls
            ++ (renderLoop (applyStop (loopIteration st viewCount input).state
                  input.stopRequested) (loopIteration st viewCount input).viewCount rest).calls
        else [] := by
  cases h : st.appRunning <;> simp [renderLoop, h]

/-- C3: handling a session-state-changed event carrying `s` records `s`; `READY` issues a
session-begin request for the primary-stereo configuration and sets `sessionRunning`;
`STOPPING` issues a session-end request and clears `sessionRunning`; `EXITING` clears
`appRunning`; the six other states leave both flags alone and issue no request. An event
of another type changes nothing. -/
theorem handleEvent_spec (st : AppState) (s : XrSessionState) (type : Nat) :
    (handleEvent st (.sessionStateChanged s)).1.sessionState = s
      ∧ (s = XR_SESSION_STATE_READY →
          (handleEvent st (.sessionStateChanged s)).2
              = [.xrBeginSession XR_VIEW_CONFIGURATION_TYPE_PRIMARY_STEREO]
            ∧ (handleEvent st (.sessionStateChanged s)).1.sessionRunning = true
            ∧ (handleEvent st (.sessionStateChanged s)).1.appRunning = st.appRunning)
      ∧ (s = XR_SESSION_STATE_STOPPING →
          (handleEvent st (.sessionStateChanged s)).2 = [.xrEndSession]
            ∧ (handleEvent st (.sessionStateChanged s)).1.sessionRunning = false
            ∧ (handleEvent st (.sessionStateChanged s)).1.appRunning = st.appRunning)
      ∧ (s = XR_SESSION_STATE_EXITING →
          (handleEvent st (.sessionStateChanged s)).2 = []
            ∧ (handleEvent st (.sessionStateChanged s)).1.sessionRunning = st.sessionRunning
            ∧ (handleEvent st (.sessionStateChanged s)).1.appRunning = false)
      ∧ (s ∈ [XR_SESSION_STATE_UNKNOWN, XR_SESSION_STATE_IDLE, XR_SESSION_STATE_SYNCHRONIZED,
              XR_SESSION_STATE_VISIBLE, XR_SESSION_STATE_FOCUSED,
              XR_SESSION_STATE_LOSS_PENDING] →
          (handleEvent st (.sessionStateChanged s)).2 = []
            ∧ (handleEvent st (.sessionStateChanged s)).1.sessionRunning = st.sessionRunning
            ∧ (handleEvent st (.sessionStateChanged s)).1.appRunning = st.appRunning)
      ∧ handleEvent st (.other type) = (st, []) := by
  refine ⟨?_, ?_, ?_, ?_, ?_, rfl⟩
  · cases s <;> rfl
  · rintro rfl; exact ⟨rfl, rfl, rfl⟩
  · rintro rfl; exact ⟨rfl, rfl, rfl⟩
  · rintro rfl; exact ⟨rfl, rfl, rfl⟩
  · intro hs
    cases s <;> first
      | exact ⟨rfl, rfl, rfl⟩
      | (exfalso; revert hs; decide)

/-- A `STOPPING` event in a running session ends the session and clears the flag. -/
theorem handleEvent_spec_witness :
    (handleEvent runningState (.sessionStateChanged XR_SESSION_STATE_STOPPING)).2
        = [.xrEndSession]
      ∧ (handleEvent runningState
          (.sessionStateChanged XR_SESSION_STATE_STOPPING)).1.sessionRunning = false
      ∧ (handleEvent runningState
          (.sessionStateChanged XR_SESSION_STATE_STOPPING)).1.appRunning
          = runningState.appRunning :=
  (handleEvent_spec runningState XR_SESSION_STATE_STOPPING 0).2.2.1 rfl

/-- C2: an iteration issues no frame call when the session is not running after the event
drain, and otherwise exactly `xrWaitFrame`, `xrBeginFrame`, `xrEndFrame` in that order; over
any run of the loop the begin-frame and end-frame calls alternate, starting with a
begin-frame and ending with an end-frame; and the calls of an iteration depend neither on
`appRunning` nor on a stop request, which are read at the loop condition only. -/
theorem frame_calls_alternate (st : AppState) (viewCount : Nat) (input : FrameInput)
    (inputs : List FrameInput) (running stop : Bool) :
    (loopIteration st viewCount input).calls.filter Call.isFrameCall
        = (if (pollEvents st input.events).1.sessionRunning then
            [.xrWaitFrame, .xrBeginFrame,
              .xrEndFrame input.frameState.predictedDisplayTime
                XR_ENVIRONMENT_BLEND_MODE_OPAQUE
                (if input.frameState.shouldRender = XR_TRUE then 1 else 0)]
          else [])
      ∧ (∃ ends : List (Int × Nat),
          (renderLoop st viewCount inputs).calls.filter Call.isBeginOrEnd
            = ends.flatMap (fun e =>
                [.xrBeginFrame, .xrEndFrame e.1 XR_ENVIRONMENT_BLEND_MODE_OPAQUE e.2]))
      ∧ (loopIteration { st with appRunning := running } viewCount
            { input with stopRequested := stop }).calls
          = (loopIteration st viewCount input).calls := by
  refine ⟨loopIteration_frameCalls st viewCount input, ?_,
    loopIteration_calls_congr st viewCount input running stop⟩
  clear input
  induction inputs generalizing st viewCount with
  | nil => exact ⟨[], rfl⟩
  | cons input rest ih =>
    rw [renderLoop_calls_cons]
    cases hApp : st.appRunning
    · exact ⟨[], rfl⟩
    · obtain ⟨ends, hends⟩ := ih (applyStop (loopIteration st viewCount input).state
        input.stopRequested) (loopIteration st viewCount input).viewCount
      simp only [if_true, List.filter_append, hends, loopIteration_beginOrEnd]
      cases (pollEvents st input.events).1.sessionRunning
      · exact ⟨ends, rfl⟩
      · exact ⟨(input.frameState.predictedDisplayTime,
            if input.frameState.shouldRender = XR_TRUE then 1 else 0) :: ends, rfl⟩

/-- An `EXITING` event drained in an iteration of a running session: the frame is still
waited for, begun and ended, and the loop then stops before the next iteration. -/
theorem frame_calls_alternate_witness :
    (loopIteration runningState 2 sampleExiting).calls.filter Call.isFrameCall
        = [.xrWaitFrame, .xrBeginFrame, .xrEndFrame 7 XR_ENVIRONMENT_BLEND_MODE_OPAQUE 1]
      ∧ (renderLoop runningState 2 [sampleExiting, sampleRender]).calls.filter
          Call.isBeginOrEnd
        = [.xrBeginFrame, .xrEndFrame 7 XR_ENVIRONMENT_BLEND_MODE_OPAQUE 1] :=
  ⟨(frame_calls_alternate runningState 2 sampleExiting [] true false).1, by decide⟩

theorem outstanding_nil (i : Nat) : outstanding i [] = 0 := by simp [outstanding]

theorem outstanding_append (i : Nat) (a b : List Call) :
    outstanding i (a ++ b) = outstanding i a + outstanding i b := by
  simp only [outstanding, List.count_append]
  push_cast
  ring

theorem outstanding_acquire (i j : Nat) :
    outstanding i [.xrAcquireSwapchainImage j] = if j = i then 1 else 0 := by
  by_cases h : j = i
  · simp [outstanding, h]
  · have h0 : List.count (Call.xrAcquireSwapchainImage i) [Call.xrAcquireSwapchainImage j] = 0 :=
      List.count_eq_zero_of_not_mem (by simpa using fun e : i = j => h e.symm)
    simp [outstanding, h, h0]

theorem outstanding_release (i j : Nat) :
    outstanding i [.xrReleaseSwapchainImage j] = if j = i then -1 else 0 := by
  by_cases h : j = i
  · simp [outstanding, h]
  · have h0 : List.count (Call.xrReleaseSwapchainImage i) [Call.xrReleaseSwapchainImage j] = 0 :=
      List.count_eq_zero_of_not_mem (by simpa using fun e : i = j => h e.symm)
    simp [outstanding, h, h0]

theorem outstanding_of_neutral (i : Nat) (l : List Call)
    (h : ∀ c ∈ l, c.isOwnershipCall = false) : outstanding i l = 0 := by
  have h1 : l.count (.xrAcquireSwapchainImage i) = 0 :=
    List.count_eq_zero_of_not_mem (fun hc => by simpa [Call.isOwnershipCall] using h _ hc)
  have h2 : l.count (.xrReleaseSwapchainImage i) = 0 :=
    List.count_eq_zero_of_not_mem (fun hc => by simpa [Call.isOwnershipCall] using h _ hc)
  simp [outstanding, h1, h2]

theorem outstanding_take_of_neutral (i k : Nat) (l : List Call)
    (h : ∀ c ∈ l, c.isOwnershipCall = false) : outstanding i (l.take k) = 0 :=
  outstanding_of_neutral i _ (fun c hc => h c (List.mem_of_mem_take hc))

theorem ownershipSafe_nil : OwnershipSafe [] := by
  intro i
  simp [outstanding_nil]

theorem ownershipSafe_of_neutral (l : List Call) (h : ∀ c ∈ l, c.isOwnershipCall = false) :
    OwnershipSafe l := by
  intro i
  refine ⟨outstanding_of_neutral i l h, fun k => ⟨?_, fun d b n _ => ?_⟩⟩
  · rw [outstanding_take_of_neutral i k l h]; decide
  · exact outstanding_take_of_neutral i k l h

theorem ownershipSafe_append (a b : List Call) (ha : OwnershipSafe a) (hb : OwnershipSafe b) :
    OwnershipSafe (a ++ b) := by
  intro i
  obtain ⟨ha0, hak⟩ := ha i
  obtain ⟨hb0, hbk⟩ := hb i
  refine ⟨by rw [outstanding_append, ha0, hb0]; rfl, fun k => ?_⟩
  rw [List.take_append_eq_append_take, outstanding_append]
  by_cases hk : k < a.length
  · have hz : k - a.length = 0 := by omega
    rw [hz, List.take_zero, outstanding_nil, add_zero]
    refine ⟨(hak k).1, fun d b n hget => (hak k).2 d b n ?_⟩
    rwa [List.getElem?_append_left hk] at hget
  · have hle : a.length ≤ k := by omega
    rw [List.take_of_length_le hle, ha0, zero_add]
    refine ⟨(hbk _).1, fun d b n hget => (hbk _).2 d b n ?_⟩
    rwa [List.getElem?_append_right hle] at hget

theorem ownershipSafe_endFrame (d : Int) (b : XrEnvironmentBlendMode) (n : Nat) :
    OwnershipSafe [.xrEndFrame d b n] := by
  intro i
  have h0 : ∀ k, outstanding i (List.take k [Call.xrEndFrame d b n]) = 0 := by
    intro k
    cases k <;> simp [outstanding]
  refine ⟨by simp [outstanding], fun k => ⟨by rw [h0 k]; decide, fun _ _ _ _ => h0 k⟩⟩

theorem ownershipSafe_bracket (j : Nat) (mid : List Call)
    (hmid : ∀ c ∈ mid, c.isOwnershipCall = false) :
    OwnershipSafe ([.xrAcquireSwapchainImage j] ++ mid ++ [.xrReleaseSwapchainImage j]) := by
  intro i
  have hacq : ∀ k, outstanding i (List.take k [Call.xrAcquireSwapchainImage j])
      = if k = 0 then 0 else if j = i then 1 else 0 := by
    intro k
    cases k
    · simp [outstanding_nil]
    · simp [outstanding_acquire]
  have hrel : ∀ k, outstanding i (List.take k [Call.xrReleaseSwapchainImage j])
      = if k = 0 then 0 else if j = i then -1 else 0 := by
    intro k
    cases k
    · simp [outstanding_nil]
    · simp [outstanding_release]
  have htake : ∀ k, outstanding i
      (List.take k ([.xrAcquireSwapchainImage j] ++ mid ++ [.xrReleaseSwapchainImage j]))
      = (if k = 0 then 0 else if j = i then 1 else 0)
        + (if k - (mid.length + 1) = 0 then 0 else if j = i then -1 else 0) := by
    intro k
    rw [List.take_append_eq_append_take, List.take_append_eq_append_take, outstanding_append,
      outstanding_append, hacq, hrel, outstanding_take_of_neutral i _ mid hmid]
    simp
  refine ⟨?_, fun k => ⟨?_, fun d b n hget => ?_⟩⟩
  · rw [outstanding_append, outstanding_append, outstanding_acquire, outstanding_release,
      outstanding_of_neutral i mid hmid]
    by_cases h : j = i <;> simp [h]
  · rw [htake]
    by_cases h : j = i <;> by_cases h0 : k = 0 <;> by_cases h1 : k - (mid.length + 1) = 0 <;>
      simp [h, h0, h1]
  · have hmem := List.getElem?_mem hget
    simp only [List.mem_append, List.mem_singleton] at hmem
    rcases hmem with (hmem | hmem) | hmem
    · cases hmem
    · have := hmid _ hmem
      simp [Call.isOwnershipCall] at this
    · cases hmem

theorem ownershipSafe_renderEye (j : Nat) (answer : SwapchainAnswer) :
    OwnershipSafe (renderEye j answer) := by
  have h := ownershipSafe_bracket j
    (.xrWaitSwapchainImage j :: drawCalls j answer.imageIndex) (by
      intro c hc
      simp [drawCalls] at hc
      rcases hc with rfl | rfl | rfl | rfl | rfl | rfl | rfl | rfl | rfl | rfl | rfl | rfl
        | rfl | rfl <;> rfl)
  simpa [renderEye] using h

theorem ownershipSafe_flatMap {β : Type} (l : List β) (f : β → List Call)
    (h : ∀ x ∈ l, OwnershipSafe (f x)) : OwnershipSafe (l.flatMap f) := by
  induction l with
  | nil => exact ownershipSafe_nil
  | cons x xs ih =>
    rw [List.flatMap_cons]
    exact ownershipSafe_append _ _ (h x (List.mem_cons_self _ _))
      (ih (fun y hy => h y (List.mem_cons_of_mem _ hy)))

theorem eventCall_not_ownership (c : Call) (h : c.isEventCall = true) :
    c.isOwnershipCall = false := by
  cases c <;> simp_all [Call.isEventCall, Call.isOwnershipCall]

theorem ownershipSafe_renderFrame (st : AppState) (viewCount : Nat) (input : FrameInput) :
    OwnershipSafe (renderFrame st viewCount input).calls := by
  unfold renderFrame
  dsimp only
  split
  · refine ownershipSafe_append _ _ (ownershipSafe_append _ _ ?_ ?_) (ownershipSafe_endFrame _ _ _)
    · exact ownershipSafe_of_neutral _ (by
        intro c hc
        simp at hc
        rcases hc with rfl | rfl | rfl <;> rfl)
    · exact ownershipSafe_flatMap _ _ (fun i _ => ownershipSafe_renderEye i _)
  · exact ownershipSafe_append [.xrWaitFrame, .xrBeginFrame] [_]
      (ownershipSafe_of_neutral _ (by intro c hc; simp at hc; rcases hc with rfl | rfl <;> rfl))
      (ownershipSafe_endFrame _ _ _)

theorem ownershipSafe_loopIteration (st : AppState) (viewCount : Nat) (input : FrameInput) :
    OwnershipSafe (loopIteration st viewCount input).calls := by
  rw [loopIteration_calls]
  refine ownershipSafe_append _ _
    (ownershipSafe_of_neutral _ (fun c hc =>
      eventCall_not_ownership c (pollEvents_isEventCall st input.events c hc))) ?_
  split
  · exact ownershipSafe_renderFrame _ _ _
  · exact ownershipSafe_of_neutral _ (by intro c hc; simp at hc; subst hc; rfl)

theorem ownershipSafe_renderLoop (st : AppState) (viewCount : Nat) (inputs : List FrameInput) :
    OwnershipSafe (renderLoop st viewCount inputs).calls := by
  induction inputs generalizing st viewCount with
  | nil => exact ownershipSafe_nil
  | cons input rest ih =>
    rw [renderLoop_calls_cons]
    split
    · exact ownershipSafe_append _ _ (ownershipSafe_loopIteration _ _ _) (ih _ _)
    · exact ownershipSafe_nil

theorem filter_onSwapchain_renderEye (i j : Nat) (answer : SwapchainAnswer) :
    (renderEye j answer).filter (Call.onSwapchain i)
      = if j = i then renderEye j answer else [] := by
  by_cases h : j = i
  · subst h
    rw [if_pos rfl, List.filter_eq_self]
    exact renderEye_onSwapchain j answer
  · rw [if_neg h, List.filter_eq_nil_iff]
    intro c hc
    have := renderEye_onSwapchain j answer c hc
    cases c <;> simp_all [Call.onSwapchain]

theorem filter_onSwapchain_eyes (i n : Nat) (answers : Nat → SwapchainAnswer) :
    ((List.range n).flatMap (fun j => renderEye j (answers j))).filter (Call.onSwapchain i)
      = if i < n then renderEye i (answers i) else [] := by
  induction n with
  | zero => simp
  | succ n ih =>
    rw [List.range_succ, List.flatMap_append, List.filter_append, ih, List.flatMap_singleton,
      filter_onSwapchain_renderEye]
    by_cases h1 : i < n
    · have h2 : ¬ n = i := by omega
      have h3 : i < n + 1 := by omega
      simp [h1, h2, h3]
    · by_cases h2 : n = i
      · subst h2; simp
      · have h3 : ¬ i < n + 1 := by omega
        simp [h1, h2, h3]

theorem eventCall_not_onSwapchain (i : Nat) (c : Call) (h : c.isEventCall = true) :
    c.onSwapchain i = false := by
  cases c <;> simp_all [Call.isEventCall, Call.onSwapchain]

/-- The swapchain and GL calls of an iteration that renders. -/
theorem loopIteration_swapchainCalls (st : AppState) (viewCount : Nat) (input : FrameInput)
    (hRunning : (pollEvents st input.events).1.sessionRunning = true)
    (hRender : input.frameState.shouldRender = XR_TRUE) :
    (loopIteration st viewCount input).calls.filter Call.isSwapchainCall
      = (List.range input.viewCountOutput).flatMap (fun i =>
          renderEye i (input.swapchain i)) := by
  rw [loopIteration_calls, hRunning, if_pos rfl, List.filter_append,
    filter_eq_nil_of_forall (pollEvents_isEventCall st input.events)
      eventCall_not_swapchainCall]
  unfold renderFrame
  simp only [hRender, if_true, List.filter_append, List.nil_append]
  rw [List.filter_eq_self.mpr (eyes_isSwapchainCall _ _)]
  simp [Call.isSwapchainCall]

/-- The calls on swapchain `i` of an iteration that renders. -/
theorem loopIteration_onSwapchain (st : AppState) (viewCount : Nat) (input : FrameInput)
    (hRunning : (pollEvents st input.events).1.sessionRunning = true)
    (hRender : input.frameState.shouldRender = XR_TRUE) (i : Nat) :
    (loopIteration st viewCount input).calls.filter (Call.onSwapchain i)
      = if i < input.viewCountOutput then renderEye i (input.swapchain i) else [] := by
  rw [loopIteration_calls, hRunning, if_pos rfl, List.filter_append,
    filter_eq_nil_of_forall (pollEvents_isEventCall st input.events)
      (eventCall_not_onSwapchain i)]
  unfold renderFrame
  simp only [hRender, if_true, List.filter_append, List.nil_append,
    filter_onSwapchain_eyes]
  simp [Call.onSwapchain]

/-- C1: in an iteration that renders (session running after the event drain, `shouldRender`
true), the swapchain and GL calls are, for the eyes `0 .. viewCount-1` in order (`viewCount`
as `xrLocateViews` left it), the acquire call, the wait call, the thirteen GL calls of the
draw into the acquired image (framebuffer set-up on image `imageIndex`, viewport, clear,
program, matrix, vertex array, `glDrawArrays(GL_TRIANGLES, 0, 6)`, unbinding, framebuffer
deletion) and the release call; the calls on swapchain `i` are exactly that one block, with
one acquire and one release. Hence, in any run of the loop, after any number of calls each
swapchain has at most one image acquired and not released (acquire calls minus release
calls), and none when `xrEndFrame` is called. -/
theorem swapchain_calls_in_order (st : AppState) (viewCount : Nat) (input : FrameInput)
    (hRunning : (pollEvents st input.events).1.sessionRunning = true)
    (hRender : input.frameState.shouldRender = XR_TRUE) :
    (loopIteration st viewCount input).calls.filter Call.isSwapchainCall
        = (List.range input.viewCountOutput).flatMap (fun i =>
            [.xrAcquireSwapchainImage i, .xrWaitSwapchainImage i,
             .gl i .glGenFramebuffers, .gl i .glBindFramebuffer,
             .gl i (.glFramebufferTexture2D (input.swapchain i).imageIndex), .gl i .glViewport,
             .gl i .glClearColor, .gl i .glClear, .gl i (.glUseProgram true),
             .gl i .glUniformMatrix4fv, .gl i (.glBindVertexArray true),
             .gl i (.glDrawArrays 0 6), .gl i (.glBindVertexArray false),
             .gl i (.glUseProgram false), .gl i .glDeleteFramebuffers,
             .xrReleaseSwapchainImage i])
      ∧ (∀ i, (loopIteration st viewCount input).calls.filter (Call.onSwapchain i)
          = if i < input.viewCountOutput then
              [.xrAcquireSwapchainImage i, .xrWaitSwapchainImage i,
               .gl i .glGenFramebuffers, .gl i .glBindFramebuffer,
               .gl i (.glFramebufferTexture2D (input.swapchain i).imageIndex), .gl i .glViewport,
               .gl i .glClearColor, .gl i .glClear, .gl i (.glUseProgram true),
               .gl i .glUniformMatrix4fv, .gl i (.glBindVertexArray true),
               .gl i (.glDrawArrays 0 6), .gl i (.glBindVertexArray false),
               .gl i (.glUseProgram false), .gl i .glDeleteFramebuffers,
               .xrReleaseSwapchainImage i]
            else [])
      ∧ (∀ i, i < input.viewCountOutput →
          (loopIteration st viewCount input).calls.count (.xrAcquireSwapchainImage i) = 1
            ∧ (loopIteration st viewCount input).calls.count (.xrReleaseSwapchainImage i) = 1
            ∧ (loopIteration st viewCount input).calls.count (.gl i (.glDrawArrays 0 6)) = 1)
      ∧ (∀ (i imageIndex : Nat),
          drawCalls i imageIndex
              = [.gl i .glGenFramebuffers, .gl i .glBindFramebuffer,
                 .gl i (.glFramebufferTexture2D imageIndex), .gl i .glViewport,
                 .gl i .glClearColor, .gl i .glClear, .gl i (.glUseProgram true),
                 .gl i .glUniformMatrix4fv, .gl i (.glBindVertexArray true),
                 .gl i (.glDrawArrays 0 6), .gl i (.glBindVertexArray false),
                 .gl i (.glUseProgram false), .gl i .glDeleteFramebuffers]
            ∧ ∀ c ∈ drawCalls i imageIndex, ∃ call, c = .gl i call)
      ∧ (∀ (state : AppState) (count : Nat) (inputs : List FrameInput) (i k : Nat),
          (0 ≤ outstanding i ((renderLoop state count inputs).calls.take k)
            ∧ outstanding i ((renderLoop state count inputs).calls.take k) ≤ 1)
          ∧ ∀ d b n, (renderLoop state count inputs).calls[k]? = some (.xrEndFrame d b n) →
              outstanding i ((renderLoop state count inputs).calls.take k) = 0) := by
  have hOn := loopIteration_onSwapchain st viewCount input hRunning hRender
  refine ⟨loopIteration_swapchainCalls st viewCount input hRunning hRender, hOn, ?_, ?_,
    fun state count inputs i k => ((ownershipSafe_renderLoop state count inputs) i).2 k⟩
  · intro i hi
    have hBlock := hOn i
    rw [if_pos hi] at hBlock
    refine ⟨?_, ?_, ?_⟩
    · rw [← List.count_filter (show Call.onSwapchain i (.xrAcquireSwapchainImage i) = true by
        simp [Call.onSwapchain]), hBlock]
      simp [renderEye, drawCalls]
    · rw [← List.count_filter (show Call.onSwapchain i (.xrReleaseSwapchainImage i) = true by
        simp [Call.onSwapchain]), hBlock]
      simp [renderEye, drawCalls]
    · rw [← List.count_filter (show Call.onSwapchain i (.gl i (.glDrawArrays 0 6)) = true by
        simp [Call.onSwapchain]), hBlock]
      simp [renderEye, drawCalls]
  · intro i imageIndex
    refine ⟨rfl, ?_⟩
    intro c hc
    simp [drawCalls] at hc
    rcases hc with rfl | rfl | rfl | rfl | rfl | rfl | rfl | rfl | rfl | rfl | rfl | rfl
      | rfl <;> exact ⟨_, rfl⟩

/-- A rendering iteration with two views: the calls on swapchain 1, on image 0. -/
theorem swapchain_calls_in_order_witness :
    (pollEvents runningState sampleRender.events).1.sessionRunning = true
      ∧ sampleRender.frameState.shouldRender = XR_TRUE
      ∧ (loopIteration runningState 2 sampleRender).calls.filter (Call.onSwapchain 1)
          = [.xrAcquireSwapchainImage 1, .xrWaitSwapchainImage 1,
             .gl 1 .glGenFramebuffers, .gl 1 .glBindFramebuffer,
             .gl 1 (.glFramebufferTexture2D 0), .gl 1 .glViewport,
             .gl 1 .glClearColor, .gl 1 .glClear, .gl 1 (.glUseProgram true),
             .gl 1 .glUniformMatrix4fv, .gl 1 (.glBindVertexArray true),
             .gl 1 (.glDrawArrays 0 6), .gl 1 (.glBindVertexArray false),
             .gl 1 (.glUseProgram false), .gl 1 .glDeleteFramebuffers,
             .xrReleaseSwapchainImage 1] :=
  ⟨rfl, rfl, (swapchain_calls_in_order runningState 2 sampleRender rfl rfl).2.1 1⟩

/-- Events other than `STOPPING` and `EXITING` keep a running session and a running
application running. -/
theorem pollEvents_keeps_running (st : AppState) (es : List XrEventDataBuffer)
    (hes : ∀ e ∈ es, e ≠ .sessionStateChanged XR_SESSION_STATE_STOPPING
      ∧ e ≠ .sessionStateChanged XR_SESSION_STATE_EXITING)
    (hRun : st.sessionRunning = true) (hApp : st.appRunning = true) :
    (pollEvents st es).1.sessionRunning = true ∧ (pollEvents st es).1.appRunning = true := by
  induction es generalizing st with
  | nil => exact ⟨hRun, hApp⟩
  | cons e es ih =>
    have he := hes e (List.mem_cons_self _ _)
    have h1 : (handleEvent st e).1.sessionRunning = true
        ∧ (handleEvent st e).1.appRunning = true := by
      cases e with
      | other t => exact ⟨hRun, hApp⟩
      | sessionStateChanged s => cases s <;> simp_all [handleEvent]
    exact ih (handleEvent st e).1 (fun x hx => hes x (List.mem_cons_of_mem _ hx)) h1.1 h1.2

/-- An iteration of a running session whose frame is not to be rendered. -/
theorem loopIteration_skip (st : AppState) (viewCount : Nat) (input : FrameInput)
    (hRun : (pollEvents st input.events).1.sessionRunning = true)
    (hSkip : input.frameState.shouldRender ≠ XR_TRUE) :
    loopIteration st viewCount input
      = { state := (pollEvents st input.events).1, viewCount := viewCount,
          calls := (pollEvents st input.events).2
            ++ [.xrWaitFrame, .xrBeginFrame,
                .xrEndFrame input.frameState.predictedDisplayTime
                  XR_ENVIRONMENT_BLEND_MODE_OPAQUE 0] } := by
  simp [loopIteration, renderFrame, hRun, hSkip]

/-- C4: while the session is running (no `STOPPING` or `EXITING` event, no stop request) and
the runtime reports `shouldRender = XR_FALSE`, for any number `N` of consecutive iterations
(the length of `inputs`), the loop issues exactly `N` times `xrWaitFrame`,
`xrBeginFrame`, `xrEndFrame`, each `xrEndFrame` with that frame's predicted display time,
the opaque blend mode and `layerCount = 0`, and no swapchain acquire, wait or release and no
GL call. -/
theorem skipped_frames (st : AppState) (viewCount : Nat) (inputs : List FrameInput)
    (hApp : st.appRunning = true) (hRun : st.sessionRunning = true)
    (hInputs : ∀ input ∈ inputs, input.frameState.shouldRender = XR_FALSE
      ∧ input.stopRequested = false
      ∧ ∀ e ∈ input.events, e ≠ .sessionStateChanged XR_SESSION_STATE_STOPPING
          ∧ e ≠ .sessionStateChanged XR_SESSION_STATE_EXITING) :
    (renderLoop st viewCount inputs).calls.filter Call.isFrameCall
        = inputs.flatMap (fun input =>
            [.xrWaitFrame, .xrBeginFrame,
              .xrEndFrame input.frameState.predictedDisplayTime
                XR_ENVIRONMENT_BLEND_MODE_OPAQUE 0])
      ∧ (renderLoop st viewCount inputs).calls.count .xrBeginFrame = inputs.length
      ∧ ((renderLoop st viewCount inputs).calls.filter Call.isBeginOrEnd).length
          = 2 * inputs.length
      ∧ ∀ c ∈ (renderLoop st viewCount inputs).calls, c.isSwapchainCall = false := by
  induction inputs generalizing st viewCount with
  | nil => simp [renderLoop]
  | cons input rest ih =>
    obtain ⟨hSkip, hStop, hEvents⟩ := hInputs input (List.mem_cons_self _ _)
    obtain ⟨hRun', hApp'⟩ := pollEvents_keeps_running st input.events hEvents hRun hApp
    have hne : input.frameState.shouldRender ≠ XR_TRUE := by rw [hSkip]; decide
    have hEv := pollEvents_isEventCall st input.events
    obtain ⟨ih1, ih2, ih3, ih4⟩ := ih (pollEvents st input.events).1 viewCount hApp' hRun'
      (fun x hx => hInputs x (List.mem_cons_of_mem _ hx))
    rw [renderLoop_calls_cons, hApp, if_pos rfl, loopIteration_skip st viewCount input hRun' hne,
      hStop]
    simp only [applyStop, Bool.false_eq_true, if_false]
    refine ⟨?_, ?_, ?_, ?_⟩
    · rw [List.filter_append, List.filter_append, ih1,
        filter_eq_nil_of_forall hEv eventCall_not_frameCall]
      simp [Call.isFrameCall]
    · have h0 : (pollEvents st input.events).2.count .xrBeginFrame = 0 :=
        List.count_eq_zero_of_not_mem (fun hc => by simpa [Call.isEventCall] using hEv _ hc)
      rw [List.count_append, List.count_append, ih2, h0]
      simp [List.count_cons]
      omega
    · rw [List.filter_append, List.filter_append, List.length_append, ih3,
        filter_eq_nil_of_forall hEv eventCall_not_beginOrEnd]
      simp [Call.isBeginOrEnd]
      omega
    · intro c hc
      simp only [List.mem_append, List.mem_cons, List.mem_singleton] at hc
      rcases hc with (hc | hc) | hc
      · exact eventCall_not_swapchainCall c (hEv c hc)
      · rcases hc with rfl | rfl | rfl | hc
        · rfl
        · rfl
        · rfl
        · cases hc
      · exact ih4 c hc

/-- Two skipped frames, at times 10 and 20, in a running session. -/
theorem skipped_frames_witness :
    (renderLoop runningState 2 [sampleSkip 10, sampleSkip 20]).calls.filter Call.isFrameCall
      = [.xrWaitFrame, .xrBeginFrame, .xrEndFrame 10 XR_ENVIRONMENT_BLEND_MODE_OPAQUE 0,
         .xrWaitFrame, .xrBeginFrame, .xrEndFrame 20 XR_ENVIRONMENT_BLEND_MODE_OPAQUE 0] :=
  (skipped_frames runningState 2 [sampleSkip 10, sampleSkip 20] rfl rfl (by
    intro input hinput
    simp only [List.mem_cons, List.mem_singleton, List.not_mem_nil, or_false] at hinput
    rcases hinput with rfl | rfl <;> exact ⟨rfl, rfl, fun e he => by cases he⟩)).1

/-- C10 as stated fails: with `xrAcquireSwapchainImage` failing for eye 0, the iteration does
not skip the draw of eye 0 (and it releases although nothing was acquired). -/
theorem swapchain_failure_counterexample :
    ¬ (XR_FAILED (sampleAcquireFailure.swapchain 0).acquireResult = true →
        (∀ call, Call.gl 0 call ∉ (loopIteration runningState 2 sampleAcquireFailure).calls)
          ∧ (Call.xrReleaseSwapchainImage 0
                ∈ (loopIteration runningState 2 sampleAcquireFailure).calls
              ↔ XR_FAILED (sampleAcquireFailure.swapchain 0).acquireResult = false)) := by
  intro h
  exact (h (by decide)).1 (.glDrawArrays 0 6) (by decide)

/-- C10, amended: the results of the acquire and wait calls are discarded. Whatever they are,
the iteration and the rest of the loop are the same as with any other results: an iteration
that renders issues, for every eye, acquire, wait, the draw calls and one release, it ends
with its `xrEndFrame`, and the state the loop condition reads next is the one left by the
event drain. -/
theorem swapchain_results_discarded (st : AppState) (viewCount : Nat) (input : FrameInput)
    (rest : List FrameInput) (acquireResult waitResult : Nat → Int) :
    loopIteration st viewCount (input.withResults acquireResult waitResult)
        = loopIteration st viewCount input
      ∧ renderLoop st viewCount (input.withResults acquireResult waitResult :: rest)
        = renderLoop st viewCount (input :: rest)
      ∧ (loopIteration st viewCount (input.withResults acquireResult waitResult)).state
        = (pollEvents st input.events).1
      ∧ ((pollEvents st input.events).1.sessionRunning = true →
          input.frameState.shouldRender = XR_TRUE →
          (∀ i, i < input.viewCountOutput →
            (loopIteration st viewCount
                (input.withResults acquireResult waitResult)).calls.filter (Call.onSwapchain i)
              = [.xrAcquireSwapchainImage i, .xrWaitSwapchainImage i]
                  ++ drawCalls i (input.swapchain i).imageIndex
                  ++ [.xrReleaseSwapchainImage i])
            ∧ (loopIteration st viewCount
                (input.withResults acquireResult waitResult)).calls.getLast?
              = some (.xrEndFrame input.frameState.predictedDisplayTime
                  XR_ENVIRONMENT_BLEND_MODE_OPAQUE 1)) := by
  have h1 : loopIteration st viewCount (input.withResults acquireResult waitResult)
      = loopIteration st viewCount input := rfl
  refine ⟨h1, rfl, ?_, fun hRunning hRender => ⟨fun i hi => ?_, ?_⟩⟩
  · rw [h1]
    unfold loopIteration renderFrame
    dsimp only
    split
    · rfl
    · split <;> rfl
  · rw [h1, loopIteration_onSwapchain st viewCount input hRunning hRender i, if_pos hi]
    rfl
  · rw [h1, loopIteration_calls, hRunning, if_pos rfl]
    unfold renderFrame
    simp only [hRender, if_true]
    rw [← List.append_assoc, List.getLast?_concat]

/-- With the acquire call failing for eye 0, eye 0 gets the same calls as in a frame where it
succeeds. -/
theorem swapchain_results_discarded_witness :
    XR_FAILED (sampleAcquireFailure.swapchain 0).acquireResult = true
      ∧ loopIteration runningState 2 sampleAcquireFailure
        = loopIteration runningState 2 sampleRender :=
  ⟨by decide, (swapchain_results_discarded runningState 2 sampleRender []
    (fun i => if i = 0 then -1 else 0) (fun _ => 0)).1⟩

end LoopTheorems

/-! ## Theorems: matrix helpers -/

section MatrixTheorems

variable {α : Type} [Field α]

/-- C7: every entry of `Matrix4f_Multiply(A, B)` is the row-by-column sum
`A[i][0]*B[0][j] + A[i][1]*B[1][j] + A[i][2]*B[2][j] + A[i][3]*B[3][j]`; the result is the
standard matrix product `A * B`, and the operation is not commutative. -/
theorem Matrix4f_Multiply_is_matrix_product :
    (∀ (a b : Matrix4f α) (i j : Fin 4),
        (Matrix4f_Multiply a b).M i j
          = a.M i 0 * b.M 0 j + a.M i 1 * b.M 1 j + a.M i 2 * b.M 2 j + a.M i 3 * b.M 3 j)
      ∧ (∀ a b : Matrix4f α,
          Matrix.of (Matrix4f_Multiply a b).M = Matrix.of a.M * Matrix.of b.M)
      ∧ (∃ a b : Matrix4f ℚ, Matrix4f_Multiply a b ≠ Matrix4f_Multiply b a) := by
  refine ⟨fun _ _ _ _ => rfl, ?_, ?_⟩
  · intro a b
    ext i j
    simp [Matrix4f_Multiply, Matrix.mul_apply, Fin.sum_univ_four]
  · refine ⟨Matrix4f_CreateTranslation 1 0 0, Matrix4f.zero.set 0 0 1, fun h => ?_⟩
    have h03 := congrArg (fun m => m.M 0 3) h
    simp [Matrix4f_Multiply, Matrix4f_CreateTranslation, Matrix4f_CreateIdentity,
      Matrix4f.set, Matrix4f.zero] at h03

/-- C8: `Matrix4f_Multiply` is associative (over exact arithmetic). -/
theorem Matrix4f_Multiply_assoc (a b c : Matrix4f α) :
    Matrix4f_Multiply (Matrix4f_Multiply a b) c
      = Matrix4f_Multiply a (Matrix4f_Multiply b c) := by
  ext i j
  simp only [Matrix4f_Multiply]
  ring

/-- C9: `Matrix4f_CreateFromXrPose(pose)` is `Matrix4f_CreateTranslation` of the position:
the identity matrix with column 3 set to `(p.x, p.y, p.z)`; the orientation is not read. -/
theorem Matrix4f_CreateFromXrPose_is_translation :
    (∀ pose : XrPosef α,
        Matrix4f_CreateFromXrPose pose
          = Matrix4f_CreateTranslation pose.position.x pose.position.y pose.position.z)
      ∧ (∀ (pose : XrPosef α) (i j : Fin 4),
          (Matrix4f_CreateFromXrPose pose).M i j
            = if j = 3 then
                (if i = 0 then pose.position.x else if i = 1 then pose.position.y
                  else if i = 2 then pose.position.z else 1)
              else if i = j then 1 else 0)
      ∧ (∀ (p : XrVector3f α) (q₁ q₂ : XrQuaternionf α),
          Matrix4f_CreateFromXrPose ⟨q₁, p⟩ = Matrix4f_CreateFromXrPose ⟨q₂, p⟩) := by
  refine ⟨fun _ => rfl, ?_, fun _ _ _ => rfl⟩
  intro pose i j
  fin_cases i <;> fin_cases j <;>
    simp [Matrix4f_CreateFromXrPose, Matrix4f_CreateIdentity, Matrix4f.set]

/-- C5: for a rigid transform `M` (rotation block with `Rᵀ R = I`, bottom row `(0,0,0,1)`),
`Matrix4f_Multiply(Matrix4f_Inverse(M), M)` is the identity matrix; every matrix
`Matrix4f_CreateFromXrPose(p)` is such a transform, so the same holds for it. -/
theorem Matrix4f_Inverse_mul_self (m : Matrix4f α) (hm : IsRigid m) (p : XrPosef α) :
    Matrix4f_Multiply (Matrix4f_Inverse m) m = Matrix4f_CreateIdentity
      ∧ IsRigid (Matrix4f_CreateFromXrPose p)
      ∧ Matrix4f_Multiply (Matrix4f_Inverse (Matrix4f_CreateFromXrPose p))
          (Matrix4f_CreateFromXrPose p) = Matrix4f_CreateIdentity := by
  have key : ∀ m : Matrix4f α, IsRigid m →
      Matrix4f_Multiply (Matrix4f_Inverse m) m = Matrix4f_CreateIdentity := by
    intro m hm
    obtain ⟨hR, h30, h31, h32, h33⟩ := hm
    have h00 := hR 0 0
    have h01 := hR 0 1
    have h02 := hR 0 2
    have h10 := hR 1 0
    have h11 := hR 1 1
    have h12 := hR 1 2
    have h20 := hR 2 0
    have h21 := hR 2 1
    have h22 := hR 2 2
    simp at h00 h01 h02 h10 h11 h12 h20 h21 h22
    ext i j
    fin_cases i <;> fin_cases j
    all_goals
      show (Matrix4f_Inverse m).M _ 0 * m.M 0 _ + (Matrix4f_Inverse m).M _ 1 * m.M 1 _
        + (Matrix4f_Inverse m).M _ 2 * m.M 2 _ + (Matrix4f_Inverse m).M _ 3 * m.M 3 _ = _
    all_goals
      simp only [Matrix4f_Inverse, Matrix4f.set, Matrix4f.zero, Matrix4f_CreateIdentity]
    all_goals simp [h30, h31, h32, h33]
    all_goals first
      | assumption
      | ring
  have hp : IsRigid (Matrix4f_CreateFromXrPose p) := by
    have c2 : Fin.castSucc (2 : Fin 3) = (2 : Fin 4) := rfl
    refine ⟨fun i j => ?_, ?_, ?_, ?_, ?_⟩
    · fin_cases i <;> fin_cases j <;>
        simp [Matrix4f_CreateFromXrPose, Matrix4f_CreateIdentity, Matrix4f.set, c2]
    all_goals simp [Matrix4f_CreateFromXrPose, Matrix4f_CreateIdentity, Matrix4f.set]
  exact ⟨key m hm, hp, key _ hp⟩

/-- The sample quarter turn is rigid, and its simplified inverse is a left inverse. -/
theorem Matrix4f_Inverse_mul_self_witness :
    IsRigid sampleRigid
      ∧ Matrix4f_Multiply (Matrix4f_Inverse sampleRigid) sampleRigid
          = Matrix4f_CreateIdentity := by
  have c2 : Fin.castSucc (2 : Fin 3) = (2 : Fin 4) := rfl
  have h : IsRigid sampleRigid := by
    refine ⟨fun i j => ?_, ?_, ?_, ?_, ?_⟩
    · fin_cases i <;> fin_cases j <;>
        simp [sampleRigid, Matrix4f_CreateTranslation, Matrix4f_CreateIdentity,
          Matrix4f.set, c2]
    all_goals
      simp [sampleRigid, Matrix4f_CreateTranslation, Matrix4f_CreateIdentity, Matrix4f.set]
  exact ⟨h, (Matrix4f_Inverse_mul_self sampleRigid h samplePose).1⟩

/-- C6: when the tangent width, the tangent height and the depth range are non-zero,
`Matrix4f_CreateProjectionFov` returns the tangent-based asymmetric frustum: the seven
listed entries are the stated quotients (genuine ones: multiplying back by the denominator
gives the numerator) and every other entry is 0. For the symmetric angles of ±45° with
near 0.1 and far 100 the diagonal terms are `2 / (tan R - tan L)` and `2 / (tan U - tan D)`
(both equal to 1) and the off-centre terms are 0. -/
theorem Matrix4f_CreateProjectionFov_entries (tanf : α → α) (fov : XrFovf α) (nearZ farZ : α)
    (hWidth : tanf fov.angleRight ≠ tanf fov.angleLeft)
    (hHeight : tanf fov.angleUp ≠ tanf fov.angleDown) (hDepth : farZ ≠ nearZ) :
    ((Matrix4f_CreateProjectionFov tanf fov nearZ farZ).M 0 0
        = 2 / (tanf fov.angleRight - tanf fov.angleLeft)
      ∧ (Matrix4f_CreateProjectionFov tanf fov nearZ farZ).M 1 1
        = 2 / (tanf fov.angleUp - tanf fov.angleDown)
      ∧ (Matrix4f_CreateProjectionFov tanf fov nearZ farZ).M 0 2
        = (tanf fov.angleRight + tanf fov.angleLeft) / (tanf fov.angleRight - tanf fov.angleLeft)
      ∧ (Matrix4f_CreateProjectionFov tanf fov nearZ farZ).M 1 2
        = (tanf fov.angleUp + tanf fov.angleDown) / (tanf fov.angleUp - tanf fov.angleDown)
      ∧ (Matrix4f_CreateProjectionFov tanf fov nearZ farZ).M 2 2
        = -(farZ + nearZ) / (farZ - nearZ)
      ∧ (Matrix4f_CreateProjectionFov tanf fov nearZ farZ).M 2 3
        = -2 * farZ * nearZ / (farZ - nearZ)
      ∧ (Matrix4f_CreateProjectionFov tanf fov nearZ farZ).M 3 2 = -1
      ∧ (Matrix4f_CreateProjectionFov tanf fov nearZ farZ).M 0 0
          * (tanf fov.angleRight - tanf fov.angleLeft) = 2
      ∧ (Matrix4f_CreateProjectionFov tanf fov nearZ farZ).M 1 1
          * (tanf fov.angleUp - tanf fov.angleDown) = 2
      ∧ (Matrix4f_CreateProjectionFov tanf fov nearZ farZ).M 2 2 * (farZ - nearZ)
          = -(farZ + nearZ)
      ∧ ∀ i j : Fin 4,
          (i, j) ∉ [((0 : Fin 4), (0 : Fin 4)), (1, 1), (0, 2), (1, 2), (2, 2), (2, 3), (3, 2)] →
          (Matrix4f_CreateProjectionFov tanf fov nearZ farZ).M i j = 0)
    ∧ ((Matrix4f_CreateProjectionFov Real.tan
          ⟨-(Real.pi / 4), Real.pi / 4, Real.pi / 4, -(Real.pi / 4)⟩ 0.1 100).M 0 0
        = 2 / (Real.tan (Real.pi / 4) - Real.tan (-(Real.pi / 4)))
      ∧ (Matrix4f_CreateProjectionFov Real.tan
          ⟨-(Real.pi / 4), Real.pi / 4, Real.pi / 4, -(Real.pi / 4)⟩ 0.1 100).M 1 1
        = 2 / (Real.tan (Real.pi / 4) - Real.tan (-(Real.pi / 4)))
      ∧ (Matrix4f_CreateProjectionFov Real.tan
          ⟨-(Real.pi / 4), Real.pi / 4, Real.pi / 4, -(Real.pi / 4)⟩ 0.1 100).M 0 2 = 0
      ∧ (Matrix4f_CreateProjectionFov Real.tan
          ⟨-(Real.pi / 4), Real.pi / 4, Real.pi / 4, -(Real.pi / 4)⟩ 0.1 100).M 1 2 = 0
      ∧ (Matrix4f_CreateProjectionFov Real.tan
          ⟨-(Real.pi / 4), Real.pi / 4, Real.pi / 4, -(Real.pi / 4)⟩ 0.1 100).M 0 0 = 1
      ∧ (Matrix4f_CreateProjectionFov Real.tan
          ⟨-(Real.pi / 4), Real.pi / 4, Real.pi / 4, -(Real.pi / 4)⟩ 0.1 100).M 1 1 = 1) := by
  refine ⟨⟨rfl, rfl, rfl, rfl, rfl, rfl, rfl, ?_, ?_, ?_, ?_⟩, rfl, rfl, ?_, ?_, ?_, ?_⟩
  · exact div_mul_cancel₀ _ (sub_ne_zero.mpr hWidth)
  · exact div_mul_cancel₀ _ (sub_ne_zero.mpr hHeight)
  · exact div_mul_cancel₀ _ (sub_ne_zero.mpr hDepth)
  · intro i j hij
    fin_cases i <;> fin_cases j <;> first
      | rfl
      | (exfalso; revert hij; simp)
  · show (Real.tan (Real.pi / 4) + Real.tan (-(Real.pi / 4)))
      / (Real.tan (Real.pi / 4) - Real.tan (-(Real.pi / 4))) = 0
    rw [Real.tan_neg, Real.tan_pi_div_four]; norm_num
  · show (Real.tan (Real.pi / 4) + Real.tan (-(Real.pi / 4)))
      / (Real.tan (Real.pi / 4) - Real.tan (-(Real.pi / 4))) = 0
    rw [Real.tan_neg, Real.tan_pi_div_four]; norm_num
  · show 2 / (Real.tan (Real.pi / 4) - Real.tan (-(Real.pi / 4))) = 1
    rw [Real.tan_neg, Real.tan_pi_div_four]; norm_num
  · show 2 / (Real.tan (Real.pi / 4) - Real.tan (-(Real.pi / 4))) = 1
    rw [Real.tan_neg, Real.tan_pi_div_four]; norm_num

/-- The ±45° field of view with near 0.1 and far 100 meets the side conditions. -/
theorem Matrix4f_CreateProjectionFov_entries_witness :
    Real.tan (Real.pi / 4) ≠ Real.tan (-(Real.pi / 4)) ∧ (100 : ℝ) ≠ 0.1
      ∧ (Matrix4f_CreateProjectionFov Real.tan
          ⟨-(Real.pi / 4), Real.pi / 4, Real.pi / 4, -(Real.pi / 4)⟩ 0.1 100).M 2 2
        = -(100 + 0.1) / (100 - 0.1) := by
  have hT : Real.tan (Real.pi / 4) ≠ Real.tan (-(Real.pi / 4)) := by
    rw [Real.tan_neg, Real.tan_pi_div_four]; norm_num
  have hZ : (100 : ℝ) ≠ 0.1 := by norm_num
  exact ⟨hT, hZ, (Matrix4f_CreateProjectionFov_entries Real.tan
    ⟨-(Real.pi / 4), Real.pi / 4, Real.pi / 4, -(Real.pi / 4)⟩ 0.1 100 hT hT hZ).1.2.2.2.2.1⟩

end MatrixTheorems

/-! ## Theorems: session states, teardown and the texture query -/

section EngineTheorems

/-- C11 as stated fails: in the initial state `UNKNOWN` a state-changed event carrying
`READY` is not an allowed edge, yet it is not rejected: the state is recorded (and the
session is begun). -/
theorem transition_not_rejected_counterexample :
    ¬ (allowedEdge initialAppState.sessionState XR_SESSION_STATE_READY = false →
        (handleEvent initialAppState (.sessionStateChanged XR_SESSION_STATE_READY)).1
          = initialAppState) := by
  intro h
  exact absurd (congrArg AppState.sessionState (h (by decide))) (by decide)

/-- C11, amended: every state-changed event is accepted. Whatever the current state `s` and
the state `s'` the event carries, allowed edge or not, `sessionState` becomes `s'`, and the
outcome (flags and requests) is the same as from any other current state: the previous
state is never read, and an event carrying a different state is never left unrecorded. -/
theorem state_changed_always_accepted (st : AppState) (s s' : XrSessionState) :
    (handleEvent { st with sessionState := s } (.sessionStateChanged s')).1.sessionState = s'
      ∧ handleEvent { st with sessionState := s } (.sessionStateChanged s')
          = handleEvent st (.sessionStateChanged s')
      ∧ (s' ≠ s →
          (handleEvent { st with sessionState := s } (.sessionStateChanged s')).1
            ≠ { st with sessionState := s }) := by
  refine ⟨?_, ?_, fun h heq => h ?_⟩
  · cases s' <;> rfl
  · cases s' <;> rfl
  · have h1 := congrArg AppState.sessionState heq
    have h2 : (handleEvent { st with sessionState := s }
        (.sessionStateChanged s')).1.sessionState = s' := by cases s' <;> rfl
    rw [h2] at h1
    exact h1

/-- From `FOCUSED`, an event carrying `UNKNOWN` (not an allowed edge) is recorded. -/
theorem state_changed_always_accepted_witness :
    allowedEdge XR_SESSION_STATE_FOCUSED XR_SESSION_STATE_UNKNOWN = false
      ∧ (handleEvent runningState
          (.sessionStateChanged XR_SESSION_STATE_UNKNOWN)).1.sessionState
        = XR_SESSION_STATE_UNKNOWN :=
  ⟨by decide,
    (state_changed_always_accepted runningState XR_SESSION_STATE_FOCUSED
      XR_SESSION_STATE_UNKNOWN).1⟩

theorem mem_destroyIfSet (c call : CleanupCall) (handle null : Nat) :
    c ∈ destroyIfSet handle null call ↔ c = call ∧ handle ≠ null := by
  unfold destroyIfSet
  by_cases h : handle = null <;> simp [h]

/-- C12: the teardown calls `xrDestroySwapchain` on every entry of `appState.swapchains`,
set or not: after a start-up in which `xrCreateSwapchain` left the handle of eye 0 unset,
the teardown calls `xrDestroySwapchain(XR_NULL_HANDLE)`. All the other destroy calls are
issued exactly when their handle is set. -/
theorem cleanup_destroys_unset_swapchain :
    OpenXrRenderLoop_init initialEngineState sampleInit
        = .loop (OpenXrRenderLoop_init initialEngineState sampleInit).state 3 2
      ∧ (OpenXrRenderLoop_init initialEngineState sampleInit).state.swapchains
        = [XR_NULL_HANDLE, 5]
      ∧ CleanupCall.xrDestroySwapchain XR_NULL_HANDLE
        ∈ cleanup (OpenXrRenderLoop_init initialEngineState sampleInit).state 3
      ∧ (∀ (st : EngineState) (tinySurface h : Nat),
          CleanupCall.xrDestroySwapchain h ∈ cleanup st tinySurface ↔ h ∈ st.swapchains)
      ∧ (∀ (st : EngineState) (tinySurface h : Nat),
          (CleanupCall.glDeleteTextures h ∈ cleanup st tinySurface
              ↔ h = st.videoTextureId ∧ h ≠ 0)
            ∧ (CleanupCall.glDeleteProgram h ∈ cleanup st tinySurface
              ↔ h = st.screenShaderProgram ∧ h ≠ 0)
            ∧ (CleanupCall.glDeleteBuffers h ∈ cleanup st tinySurface
              ↔ h = st.screenVbo ∧ h ≠ 0)
            ∧ (CleanupCall.glDeleteVertexArrays h ∈ cleanup st tinySurface
              ↔ h = st.screenVao ∧ h ≠ 0)
            ∧ (CleanupCall.xrDestroySpace h ∈ cleanup st tinySurface
              ↔ h = st.space ∧ h ≠ XR_NULL_HANDLE)
            ∧ (CleanupCall.xrDestroySession h ∈ cleanup st tinySurface
              ↔ h = st.session ∧ h ≠ XR_NULL_HANDLE)
            ∧ (CleanupCall.xrDestroyInstance h ∈ cleanup st tinySurface
              ↔ h = st.instanceHandle ∧ h ≠ XR_NULL_HANDLE)
            ∧ (CleanupCall.eglDestroySurface st.display h ∈ cleanup st tinySurface
              ↔ h = tinySurface ∧ h ≠ EGL_NO_SURFACE)
            ∧ (CleanupCall.eglDestroyContext st.display h ∈ cleanup st tinySurface
              ↔ h = st.context ∧ h ≠ EGL_NO_CONTEXT)) := by
  refine ⟨by decide, by decide, by decide, ?_, ?_⟩
  · intro st tinySurface h
    simp [cleanup, mem_destroyIfSet]
  · intro st tinySurface h
    simp only [cleanup, List.mem_append, mem_destroyIfSet, List.mem_map, List.mem_singleton]
    refine ⟨?_, ?_, ?_, ?_, ?_, ?_, ?_, ?_, ?_⟩ <;>
      constructor <;> intro hh <;> simp_all <;> aesop

theorem hostStep_glInitialized (s : AppState × EngineState) (call : HostCall)
    (h : s.2.glInitialized = false) : (hostStep s call).2.glInitialized = false := by
  cases call with
  | nativeGetTextureId => exact h
  | nativeOnResume => exact h
  | nativeOnPause => exact h
  | nativeOnDestroy => rfl
  | nativeSetSurface surface window =>
    simp only [hostStep, nativeSetSurface]
    split
    · exact h
    · exact h

theorem hostRun_glInitialized (s : AppState × EngineState) (calls : List HostCall)
    (h : s.2.glInitialized = false) : (hostRun s calls).2.glInitialized = false := by
  induction calls generalizing s with
  | nil => exact h
  | cons call rest ih => exact ih (hostStep s call) (hostStep_glInitialized s call h)

theorem nativeGetTextureId_of_not_initialized (st : EngineState)
    (h : st.glInitialized = false) : nativeGetTextureId st = -1 := by
  simp [nativeGetTextureId, h]

/-- A fatal start-up error ends the start-up by an early `return` that leaves
`glInitialized` as it was. -/
theorem OpenXrRenderLoop_init_fatal (st : EngineState) (a : InitAnswers)
    (hFatal : a.fatal = true) :
    ∃ st', OpenXrRenderLoop_init st a = .returned st'
      ∧ st'.glInitialized = st.glInitialized := by
  unfold OpenXrRenderLoop_init
  dsimp only
  split
  · exact ⟨_, rfl, rfl⟩
  split
  · exact ⟨_, rfl, rfl⟩
  split
  · exact ⟨_, rfl, rfl⟩
  split
  · exact ⟨_, rfl, rfl⟩
  split
  · exact ⟨_, rfl, rfl⟩
  split
  · exact ⟨_, rfl, rfl⟩
  split
  · exact ⟨_, rfl, rfl⟩
  split
  · exact ⟨_, rfl, rfl⟩
  split
  · exact ⟨_, rfl, rfl⟩
  · exfalso
    simp_all [InitAnswers.fatal]

/-- When the start-up reaches the frame loop, no fatal error occurred and `glInitialized` is
set. -/
theorem OpenXrRenderLoop_init_loop (st st' : EngineState) (a : InitAnswers)
    (tinySurface viewCount : Nat)
    (h : OpenXrRenderLoop_init st a = .loop st' tinySurface viewCount) :
    a.fatal = false ∧ st'.glInitialized = true := by
  cases hf : a.fatal
  · refine ⟨rfl, ?_⟩
    unfold OpenXrRenderLoop_init at h
    dsimp only at h
    repeat' split at h
    all_goals first
      | (cases h; rfl)
      | cases h
  · obtain ⟨st'', h', -⟩ := OpenXrRenderLoop_init_fatal st a hf
    rw [h'] at h
    cases h

/-- C13: `nativeGetTextureId` returns the texture id (converted to `jint`; the id itself
below `2^31`) when `glInitialized` is set and `videoTextureId > 0`, and -1 otherwise. The
start-up sets `glInitialized` only after every fatal-error `return`: started with the flag
clear (as it is initially and after `nativeOnDestroy`), a start-up with a fatal error
returns early with the flag clear, and the query answers -1 after any later host calls;
after `nativeOnDestroy` it answers -1. -/
theorem nativeGetTextureId_valid_only_after_init (app : AppState) (st : EngineState)
    (a : InitAnswers) (calls : List HostCall)
    (hFresh : st.glInitialized = false) (hFatal : a.fatal = true) :
    (∀ s : EngineState,
        nativeGetTextureId s
          = if s.glInitialized = true ∧ 0 < s.videoTextureId then toJint s.videoTextureId
            else -1)
      ∧ (∀ s : EngineState, s.glInitialized = true → 0 < s.videoTextureId →
          s.videoTextureId < 2 ^ 31 → nativeGetTextureId s = s.videoTextureId)
      ∧ (∃ st', OpenXrRenderLoop_init st a = .returned st' ∧ st'.glInitialized = false)
      ∧ nativeGetTextureId (hostRun (app, (OpenXrRenderLoop_init st a).state) calls).2 = -1
      ∧ (∀ (app' : AppState) (s : EngineState),
          nativeGetTextureId (nativeOnDestroy app' s).2 = -1)
      ∧ (∀ (st₀ st' : EngineState) (a₀ : InitAnswers) (tinySurface viewCount : Nat),
          OpenXrRenderLoop_init st₀ a₀ = .loop st' tinySurface viewCount →
            a₀.fatal = false ∧ st'.glInitialized = true) := by
  obtain ⟨st', hst', hflag⟩ := OpenXrRenderLoop_init_fatal st a hFatal
  refine ⟨fun s => ?_, fun s h1 h2 h3 => ?_, ⟨st', hst', by rw [hflag, hFresh]⟩, ?_,
    fun app' s => nativeGetTextureId_of_not_initialized _ rfl,
    fun st₀ st'' a₀ ts vc h => OpenXrRenderLoop_init_loop st₀ st'' a₀ ts vc h⟩
  · simp [nativeGetTextureId]
  · have hmod : s.videoTextureId % 2 ^ 32 = s.videoTextureId := Nat.mod_eq_of_lt (by omega)
    simp only [nativeGetTextureId, toJint, hmod]
    rw [if_pos ⟨h1, h2⟩, if_pos h3]
  · apply nativeGetTextureId_of_not_initialized
    apply hostRun_glInitialized
    rw [hst']
    show st'.glInitialized = false
    rw [hflag, hFresh]

/-- From the initial state, a start-up in which `xrCreateSession` fails: the query answers
-1, also after a resume and a surface attach. -/
theorem nativeGetTextureId_valid_only_after_init_witness :
    initialEngineState.glInitialized = false ∧ sampleInitFailure.fatal = true
      ∧ nativeGetTextureId
          (hostRun (initialAppState,
            (OpenXrRenderLoop_init initialEngineState sampleInitFailure).state)
            [.nativeOnResume, .nativeSetSurface 1 1, .nativeGetTextureId]).2 = -1 :=
  ⟨rfl, by decide,
    (nativeGetTextureId_valid_only_after_init initialAppState initialEngineState
      sampleInitFailure [.nativeOnResume, .nativeSetSurface 1 1, .nativeGetTextureId]
      rfl (by decide)).2.2.2.1⟩

end EngineTheorems

end NativeLib
